import Mathlib

/-!
Verification development for the financial controlling dataset generator
(`generate_financial_dataset.py`).

Shallow embedding conventions:
* Dates are integers (days since 1970-01-01).  `DATE_START` / `DATE_END`
  are the day numbers of 2023-01-01 and 2025-12-31.
* Money and rates are rationals; Python `round(x, d)` (round-half-to-even
  on the scaled value) is modelled by `roundD`.
* The process-wide seeded random state (`random` / `numpy` / `Faker`,
  all seeded at module load) is modelled by a single explicit state
  `RState`: a stream of natural numbers together with a position.  Each
  primitive draw consumes one stream element; the *distribution* of the
  draws is abstracted, but every primitive maps the raw draw into the
  exact support the corresponding library call has (e.g. `randint a b`
  always lands in `[a, b]`), which is what the spec claims quantify over.
* The external identity generator (Faker) is modelled as opaque
  state-determined strings (`fakeText`).
* `random.choice` on a list that is statically nonempty (a literal
  constant list) is modelled by the total `choice`; where the spec's
  claims concern the possibility of an empty candidate list
  (restricted-reference fallbacks, account tables), the partial
  `choiceO` is used, `none` modelling the `IndexError` Python raises.
* The unbounded rejection loop for the credit account in
  `gen_transakce` is modelled with explicit fuel (`whileNe`); running
  out of fuel yields `none`.
-/

set_option maxRecDepth 100000

/- Batteries marks the arithmetic on `Rat` `@[irreducible]`; witnesses
evaluate concrete runs of the generators with `decide`, which needs
these definitions to reduce. -/
attribute [local semireducible] Rat.add Rat.sub Rat.mul Rat.inv Rat.ofScientific

/-- The shared deterministic random context: a stream of raw draws plus
the current position.  Advancing the position models consuming one draw
from the seeded global generator. -/
structure RState where
  seq : Nat → Nat
  pos : Nat

def RState.next (s : RState) : Nat × RState :=
  (s.seq s.pos, ⟨s.seq, s.pos + 1⟩)

/-- A draw in `[0, k)` (for `k > 0`); support model of the library's
bounded integer draws. -/
def drawNat (k : Nat) (s : RState) : Nat × RState :=
  let (r, s') := s.next
  (r % k, s')

/-- Python `random.randint a b`: both bounds inclusive. -/
def randint (a b : Int) (s : RState) : Int × RState :=
  let (r, s') := s.next
  (a + ((r % (b - a + 1).toNat : Nat) : Int), s')

/-- `np.random.randint lo hi` (`hi` exclusive). -/
def npRandint (lo hi : Int) (s : RState) : Int × RState :=
  let (r, s') := s.next
  (lo + ((r % (hi - lo).toNat : Nat) : Int), s')

/-- Model of `random.random()`: a value in `[0, 1)`; the stream value is
reduced to a grid of 1/1000 (the real distribution is abstracted, the
support `[0, 1)` is preserved). -/
def randFloat01 (s : RState) : ℚ × RState :=
  let (r, s') := s.next
  (((r % 1000 : Nat) : ℚ) / 1000, s')

/-- Python `random.uniform a b`. -/
def uniform (a b : ℚ) (s : RState) : ℚ × RState :=
  let (q, s') := randFloat01 s
  (a + q * (b - a), s')

/-- `random.choice` on a nonempty list (every call site below passes a
statically nonempty constant list, mirroring the source). -/
def choice [Inhabited α] (l : List α) (s : RState) : α × RState :=
  let (r, s') := s.next
  (l.getD (r % l.length) default, s')

/-- `random.choice` with the empty-list error surfaced as `none`. -/
def choiceO (l : List α) (s : RState) : Option (α × RState) :=
  let (r, s') := s.next
  match l.get? (r % l.length) with
  | some x => some (x, s')
  | none => none

/-- `random.sample l k`: `k` distinct positions drawn without
replacement (callers guarantee `k ≤ l.length`, as Python requires). -/
def sample [Inhabited α] : List α → Nat → RState → List α × RState
  | _, 0, s => ([], s)
  | l, k + 1, s =>
    if l.isEmpty then ([], s)
    else
      let (r, s') := s.next
      let i := r % l.length
      let (rest, s'') := sample (l.eraseIdx i) k s'
      (l.getD i default :: rest, s'')

/-- Opaque model of a Faker text draw (external identity generator,
seeded; consumes one draw from the shared context). -/
def fakeText (tag : String) (s : RState) : String × RState :=
  let (r, s') := s.next
  (tag ++ toString r, s')

/-- Left-pad a number with zeros to width `w` (Python `zfill` /
`{:0wd}` formats). -/
def zfill (w : Nat) (n : Nat) : String :=
  let t := toString n
  String.mk (List.replicate (w - t.length) '0') ++ t

/-- Round-half-to-even to an integer (Python `round`). -/
def roundHE (y : ℚ) : ℤ :=
  let f := ⌊y⌋
  let r := y - f
  if r < 1/2 then f
  else if 1/2 < r then f + 1
  else if f % 2 = 0 then f else f + 1

/-- Python `round(x, d)`. -/
def roundD (d : Nat) (x : ℚ) : ℚ :=
  ((roundHE (x * (10 : ℚ) ^ d) : ℚ)) / (10 : ℚ) ^ d

/-- Python `round(x, 2)` — the money rounding used throughout. -/
def round2 (x : ℚ) : ℚ := roundD 2 x

theorem floor_le_roundHE (y : ℚ) : ⌊y⌋ ≤ roundHE y := by
  unfold roundHE
  dsimp only
  split
  · exact le_refl _
  · split
    · exact le_of_lt (lt_add_one _)
    · split
      · exact le_refl _
      · exact le_of_lt (lt_add_one _)

theorem roundHE_le_floor_add_one (y : ℚ) : roundHE y ≤ ⌊y⌋ + 1 := by
  unfold roundHE
  dsimp only
  split
  · exact le_of_lt (lt_add_one _)
  · split
    · exact le_refl _
    · split
      · exact le_of_lt (lt_add_one _)
      · exact le_refl _

theorem roundHE_intCast (n : ℤ) : roundHE (n : ℚ) = n := by
  unfold roundHE
  dsimp only
  rw [Int.floor_intCast]
  have h : (n : ℚ) - n = 0 := by ring
  rw [h]
  norm_num

theorem abs_roundHE_sub (y : ℚ) : |(roundHE y : ℚ) - y| ≤ 1/2 := by
  have hf : (⌊y⌋ : ℚ) ≤ y := Int.floor_le y
  have hf' : y < ⌊y⌋ + 1 := Int.lt_floor_add_one y
  unfold roundHE
  dsimp only
  split
  · rw [abs_sub_comm, abs_of_nonneg (by linarith)]
    linarith
  · rename_i h1
    push_neg at h1
    split
    · push_cast
      rw [abs_of_nonneg (by linarith)]
      linarith
    · rename_i h2
      push_neg at h2
      have he : y - ⌊y⌋ = 1/2 := le_antisymm h2 h1
      split
      · rw [abs_sub_comm, abs_of_nonneg (by linarith)]
        linarith
      · push_cast
        rw [abs_of_nonneg (by linarith)]
        linarith

theorem le_roundHE_of_intCast_le {n : ℤ} {y : ℚ} (h : (n : ℚ) ≤ y) :
    n ≤ roundHE y :=
  le_trans (Int.le_floor.mpr h) (floor_le_roundHE y)

theorem roundHE_le_of_le_intCast {n : ℤ} {y : ℚ} (h : y ≤ (n : ℚ)) :
    roundHE y ≤ n := by
  have hf : (⌊y⌋ : ℚ) ≤ y := Int.floor_le y
  unfold roundHE
  dsimp only
  have hfl : ⌊y⌋ ≤ n := (Int.floor_le_floor h).trans_eq (Int.floor_intCast n)
  split
  · exact hfl
  · rename_i h1
    push_neg at h1
    have hlt : ⌊y⌋ < n := by
      have : (⌊y⌋ : ℚ) + 1/2 ≤ y := by linarith
      have : (⌊y⌋ : ℚ) < (n : ℚ) := by linarith
      exact_mod_cast this
    split
    · omega
    · split
      · exact hfl
      · omega

/-- An amount on the 2-decimal (cent) grid. -/
def isCents (x : ℚ) : Prop := ∃ k : ℤ, x = (k : ℚ) / 100

theorem isCents_round2 (x : ℚ) : isCents (round2 x) := by
  refine ⟨roundHE (x * 100), ?_⟩
  unfold round2 roundD
  norm_num

theorem isCents_sub {a b : ℚ} (ha : isCents a) (hb : isCents b) :
    isCents (a - b) := by
  obtain ⟨k, hk⟩ := ha
  obtain ⟨m, hm⟩ := hb
  exact ⟨k - m, by rw [hk, hm]; push_cast; ring⟩

theorem round2_eq_self {x : ℚ} (h : isCents x) : round2 x = x := by
  obtain ⟨k, hk⟩ := h
  unfold round2 roundD
  have h100 : x * (10 : ℚ) ^ 2 = (k : ℚ) := by rw [hk]; ring
  rw [h100, roundHE_intCast, hk]
  norm_num

theorem abs_round2_sub (x : ℚ) : |round2 x - x| ≤ 1/200 := by
  have h := abs_roundHE_sub (x * (10 : ℚ) ^ 2)
  unfold round2 roundD
  have h2 : (roundHE (x * (10 : ℚ) ^ 2) : ℚ) / (10 : ℚ) ^ 2 - x
      = ((roundHE (x * (10 : ℚ) ^ 2) : ℚ) - x * (10 : ℚ) ^ 2) / 100 := by
    norm_num
    ring
  rw [h2, abs_div]
  rw [abs_of_pos (by norm_num : (0:ℚ) < 100)]
  rw [div_le_iff₀ (by norm_num : (0:ℚ) < 100)]
  calc |(roundHE (x * (10 : ℚ) ^ 2) : ℚ) - x * (10 : ℚ) ^ 2| ≤ 1/2 := h
    _ ≤ 1/200 * 100 := by norm_num

theorem intCast_le_round2 {m : ℤ} {x : ℚ} (h : (m : ℚ) ≤ x) :
    (m : ℚ) ≤ round2 x := by
  have h' : ((100 * m : ℤ) : ℚ) ≤ x * (10 : ℚ) ^ 2 := by push_cast; nlinarith
  have hc : ((100 * m : ℤ) : ℚ) ≤ (roundHE (x * (10 : ℚ) ^ 2) : ℚ) := by
    exact_mod_cast le_roundHE_of_intCast_le h'
  unfold round2 roundD
  rw [le_div_iff₀ (by positivity)]
  push_cast at hc ⊢
  linarith

theorem round2_le_intCast {m : ℤ} {x : ℚ} (h : x ≤ (m : ℚ)) :
    round2 x ≤ (m : ℚ) := by
  have h' : x * (10 : ℚ) ^ 2 ≤ ((100 * m : ℤ) : ℚ) := by push_cast; nlinarith
  have hc : (roundHE (x * (10 : ℚ) ^ 2) : ℚ) ≤ ((100 * m : ℤ) : ℚ) := by
    exact_mod_cast roundHE_le_of_le_intCast h'
  unfold round2 roundD
  rw [div_le_iff₀ (by positivity)]
  push_cast at hc ⊢
  linarith

/-- Stateful map: one output element per input element, threading the
random context left to right (the shape of every per-row generation
loop in the source). -/
def mapState (f : α → RState → β × RState) : List α → RState → List β × RState
  | [], s => ([], s)
  | a :: as, s =>
    let p := f a s
    let q := mapState f as p.2
    (p.1 :: q.1, q.2)

theorem mapState_length (f : α → RState → β × RState) :
    ∀ (l : List α) (s : RState), ((mapState f l s).1).length = l.length := by
  intro l
  induction l with
  | nil => intro s; rfl
  | cons a as ih =>
    intro s
    simp only [mapState, List.length_cons]
    rw [ih]

theorem mapState_forall_mem {P : β → Prop} (f : α → RState → β × RState)
    (h : ∀ a s, P (f a s).1) :
    ∀ (l : List α) (s : RState), ∀ b ∈ (mapState f l s).1, P b := by
  intro l
  induction l with
  | nil => intro s b hb; simp [mapState] at hb
  | cons a as ih =>
    intro s b hb
    simp only [mapState, List.mem_cons] at hb
    rcases hb with hb | hb
    · rw [hb]; exact h a s
    · exact ih _ b hb

theorem mapState_map (f : α → RState → β × RState) (g : β → γ) (g0 : α → γ)
    (h : ∀ a s, g (f a s).1 = g0 a) :
    ∀ (l : List α) (s : RState), ((mapState f l s).1).map g = l.map g0 := by
  intro l
  induction l with
  | nil => intro s; rfl
  | cons a as ih =>
    intro s
    simp only [mapState, List.map_cons]
    rw [h a s, ih]

/-- Stateful map where each element may fail (the shape of the
generation loops that can raise: empty candidate list, rejection-loop
fuel). -/
def mapStateO (f : α → RState → Option (β × RState)) :
    List α → RState → Option (List β × RState)
  | [], s => some ([], s)
  | a :: as, s =>
    (f a s).bind fun p =>
      (mapStateO f as p.2).bind fun q => some (p.1 :: q.1, q.2)

theorem mapStateO_isSome (f : α → RState → Option (β × RState))
    (h : ∀ a s, (f a s).isSome) :
    ∀ (l : List α) (s : RState), (mapStateO f l s).isSome := by
  intro l
  induction l with
  | nil => intro s; rfl
  | cons a as ih =>
    intro s
    rcases hfa : f a s with _ | ⟨b, s'⟩
    · have := h a s; rw [hfa] at this; simp at this
    · rcases hrest : mapStateO f as s' with _ | ⟨bs, s''⟩
      · have := ih s'; rw [hrest] at this; simp at this
      · simp [mapStateO, hfa, hrest, Option.bind]

theorem mapStateO_forall_mem {P : β → Prop} (f : α → RState → Option (β × RState))
    (h : ∀ a s b s', f a s = some (b, s') → P b) :
    ∀ (l : List α) (s : RState) (bs : List β) (s'' : RState),
      mapStateO f l s = some (bs, s'') → ∀ b ∈ bs, P b := by
  intro l
  induction l with
  | nil =>
    intro s bs s'' heq b hb
    simp only [mapStateO, Option.some.injEq, Prod.mk.injEq] at heq
    rw [← heq.1] at hb
    simp at hb
  | cons a as ih =>
    intro s bs s'' heq b hb
    simp only [mapStateO] at heq
    rcases hfa : f a s with _ | ⟨b0, s'⟩ <;> rw [hfa] at heq <;>
      simp only [Option.bind] at heq
    · exact absurd heq (by simp)
    · rcases hrest : mapStateO f as s' with _ | ⟨bs0, s0⟩ <;> rw [hrest] at heq <;>
        simp only [Option.bind] at heq
      · exact absurd heq (by simp)
      · simp only [Option.some.injEq, Prod.mk.injEq] at heq
        rw [← heq.1] at hb
        rcases List.mem_cons.mp hb with hb | hb
        · rw [hb]; exact h a s b0 s' hfa
        · exact ih s' bs0 s0 hrest b hb

/-- 2023-01-01 as days since 1970-01-01. -/
def DATE_START : ℤ := 19358

/-- 2025-12-31 as days since 1970-01-01. -/
def DATE_END : ℤ := 20453

/-- `(DATE_END - DATE_START).days + 1`. -/
def TOTAL_DAYS : ℕ := (DATE_END - DATE_START + 1).toNat

/-- Calendar month (1..12) of a day number (civil-from-days algorithm;
the day numbers handled here are far from the negative range, so
truncating integer division agrees with floor division). -/
def monthOfDay (z : ℤ) : ℤ :=
  let z' := z + 719468
  let era := z' / 146097
  let doe := z' - era * 146097
  let yoe := (doe - doe / 1460 + doe / 36524 - doe / 146096) / 365
  let doy := doe - (365 * yoe + yoe / 4 - yoe / 100)
  let mp := (5 * doy + 2) / 153
  if mp < 10 then mp + 3 else mp - 9

/-- Integer seasonal weight of a day: 16/11/10/7 in place of the
source's 1.6/1.1/1.0/0.7 (`np.random.choice` normalises the weights, so
a common positive scale factor leaves the distribution unchanged). -/
def dayWeight (z : ℤ) : ℕ :=
  let m := monthOfDay z
  if m = 10 ∨ m = 11 ∨ m = 12 then 16
  else if m = 7 ∨ m = 8 ∨ m = 9 then 11
  else if m = 4 ∨ m = 5 ∨ m = 6 then 10
  else 7

theorem one_le_dayWeight (z : ℤ) : 1 ≤ dayWeight z := by
  unfold dayWeight
  dsimp only
  split
  · norm_num
  · split
    · norm_num
    · split <;> norm_num

/-- Pick the index whose cumulative-weight interval contains `k`
(the categorical sampling step of `np.random.choice(total, p=weights)`,
with the raw draw reduced modulo the total weight). -/
def selectIdx : List ℕ → ℕ → ℕ
  | [], _ => 0
  | w :: rest, k => if k < w then 0 else selectIdx rest (k - w) + 1

theorem selectIdx_lt : ∀ (ws : List ℕ) (k : ℕ), k < ws.sum →
    selectIdx ws k < ws.length := by
  intro ws
  induction ws with
  | nil => intro k hk; simp at hk
  | cons w rest ih =>
    intro k hk
    simp only [selectIdx, List.length_cons]
    split
    · omega
    · rename_i hw
      push_neg at hw
      have : k - w < rest.sum := by
        simp only [List.sum_cons] at hk
        omega
      have := ih (k - w) this
      omega

theorem length_le_sum {l : List ℕ} (h : ∀ w ∈ l, 1 ≤ w) :
    l.length ≤ l.sum := by
  induction l with
  | nil => simp
  | cons w rest ih =>
    simp only [List.length_cons, List.sum_cons]
    have h1 := h w (by simp)
    have h2 := ih (fun x hx => h x (by simp [hx]))
    omega

/-- Per-day weight table over the inclusive range `[start, start+total)`. -/
def seasonalWeights (start : ℤ) (total : ℕ) : List ℕ :=
  (List.range total).map (fun d : ℕ => dayWeight (start + (d : ℤ)))

/-- `random_dates` (uniform dates, `np.random.randint` day offsets). -/
def random_dates (n : ℕ) (dStart dEnd : ℤ) (s : RState) : List ℤ × RState :=
  let total := (dEnd - dStart + 1).toNat
  mapState (fun _ s =>
    let (d, s') := drawNat total s
    (dStart + (d : ℤ), s')) (List.range n) s

/-- `seasonal_dates` (seasonally weighted dates via weighted
categorical sampling over every day of the range). -/
def seasonal_dates (n : ℕ) (dStart dEnd : ℤ) (s : RState) : List ℤ × RState :=
  let total := (dEnd - dStart + 1).toNat
  let ws := seasonalWeights dStart total
  mapState (fun _ s =>
    let (k, s') := drawNat ws.sum s
    (dStart + (selectIdx ws k : ℤ), s')) (List.range n) s

theorem length_seasonalWeights (start : ℤ) (total : ℕ) :
    (seasonalWeights start total).length = total := by
  rw [seasonalWeights, List.length_map, List.length_range]

/-- A concrete random context used in witnesses: the identity stream. -/
def sId : RState := ⟨fun n => n, 0⟩

theorem total_days_pos {dStart dEnd : ℤ} (h : dStart ≤ dEnd) :
    0 < (dEnd - dStart + 1).toNat := by omega

theorem one_le_sum_seasonalWeights {dStart dEnd : ℤ} (h : dStart ≤ dEnd) :
    0 < (seasonalWeights dStart (dEnd - dStart + 1).toNat).sum := by
  have hlen := length_seasonalWeights dStart (dEnd - dStart + 1).toNat
  have hle : (seasonalWeights dStart (dEnd - dStart + 1).toNat).length ≤
      (seasonalWeights dStart (dEnd - dStart + 1).toNat).sum := by
    apply length_le_sum
    intro w hw
    rw [seasonalWeights, List.mem_map] at hw
    obtain ⟨d, _, hd⟩ := hw
    rw [← hd]
    exact one_le_dayWeight _
  have := total_days_pos h
  omega

/-- C5: `random_dates n start end` and `seasonal_dates n start end`
both return exactly `n` dates, and every returned date lies within
`[start, end]` inclusive (for a well-formed range `start ≤ end`). -/
theorem c5_date_generators_length_range (n : ℕ) (dStart dEnd : ℤ) (s : RState)
    (h : dStart ≤ dEnd) :
    ((random_dates n dStart dEnd s).1.length = n ∧
      ∀ d ∈ (random_dates n dStart dEnd s).1, dStart ≤ d ∧ d ≤ dEnd) ∧
    ((seasonal_dates n dStart dEnd s).1.length = n ∧
      ∀ d ∈ (seasonal_dates n dStart dEnd s).1, dStart ≤ d ∧ d ≤ dEnd) := by
  have htot : ((dEnd - dStart + 1).toNat : ℤ) = dEnd - dStart + 1 := by omega
  have htotpos := total_days_pos h
  constructor
  · constructor
    · rw [random_dates, mapState_length, List.length_range]
    · apply mapState_forall_mem
      intro a s0
      simp only [drawNat, RState.next]
      have hm : s0.seq s0.pos % (dEnd - dStart + 1).toNat <
          (dEnd - dStart + 1).toNat := Nat.mod_lt _ htotpos
      omega
  · constructor
    · rw [seasonal_dates, mapState_length, List.length_range]
    · apply mapState_forall_mem
      intro a s0
      simp only [drawNat, RState.next]
      have hsum := one_le_sum_seasonalWeights h
      have hk : s0.seq s0.pos % (seasonalWeights dStart (dEnd - dStart + 1).toNat).sum <
          (seasonalWeights dStart (dEnd - dStart + 1).toNat).sum := Nat.mod_lt _ hsum
      have hidx := selectIdx_lt _ _ hk
      rw [length_seasonalWeights] at hidx
      omega

theorem c5_date_generators_length_range_witness :
    (0 : ℤ) ≤ 9 ∧
    (((random_dates 3 0 9 sId).1.length = 3 ∧
      ∀ d ∈ (random_dates 3 0 9 sId).1, (0 : ℤ) ≤ d ∧ d ≤ 9) ∧
    ((seasonal_dates 3 0 9 sId).1.length = 3 ∧
      ∀ d ∈ (seasonal_dates 3 0 9 sId).1, (0 : ℤ) ≤ d ∧ d ≤ 9)) :=
  ⟨by norm_num, c5_date_generators_length_range 3 0 9 sId (by norm_num)⟩

/-- One entry of the fixed chart-of-accounts configuration table:
(range start, count, class digit, name template stem, type, group).
The Python template string always ends in a placeholder that receives
`j+1`, so it is stored as the stem before the placeholder. -/
structure UcetGroup where
  startNum : Nat
  count : Nat
  trida : String
  nameStem : String
  typ : String
  skupina : String
deriving DecidableEq, Inhabited

/-- The fixed configuration table of `gen_ucty`, transcribed verbatim. -/
def uctyGroups : List UcetGroup := [
  ⟨11, 5, "0", "DNM - ", "Aktiva", "Dlouhodobý nehmotný majetek"⟩,
  ⟨21, 8, "0", "DHM - ", "Aktiva", "Dlouhodobý hmotný majetek"⟩,
  ⟨31, 5, "0", "DFM - ", "Aktiva", "Dlouhodobý finanční majetek"⟩,
  ⟨41, 3, "0", "Oprávky DNM - ", "Aktiva", "Oprávky k DNM"⟩,
  ⟨51, 5, "0", "Oprávky DHM - ", "Aktiva", "Oprávky k DHM"⟩,
  ⟨111, 5, "1", "Materiál - ", "Aktiva", "Zásoby materiálu"⟩,
  ⟨121, 5, "1", "Nedokončená výroba - ", "Aktiva", "Zásoby NV"⟩,
  ⟨131, 5, "1", "Výrobky - ", "Aktiva", "Zásoby výrobků"⟩,
  ⟨211, 3, "2", "Pokladna ", "Aktiva", "Finanční účty"⟩,
  ⟨221, 5, "2", "Bankovní účet ", "Aktiva", "Finanční účty"⟩,
  ⟨231, 2, "2", "Krátkodobý úvěr ", "Pasiva", "Finanční účty"⟩,
  ⟨311, 5, "3", "Pohledávky ", "Aktiva", "Pohledávky"⟩,
  ⟨321, 5, "3", "Závazky ", "Pasiva", "Závazky"⟩,
  ⟨331, 3, "3", "Zaměstnanci ", "Pasiva", "Zúčtování se zaměstnanci"⟩,
  ⟨341, 3, "3", "Daňové záv./pohl. ", "Pasiva", "Daně"⟩,
  ⟨343, 2, "3", "DPH ", "Pasiva", "Daně"⟩,
  ⟨361, 3, "3", "Jiné závazky ", "Pasiva", "Ostatní závazky"⟩,
  ⟨381, 5, "3", "Časové rozlišení ", "Aktiva", "Přechodné účty"⟩,
  ⟨411, 3, "4", "Základní kapitál ", "Pasiva", "Vlastní kapitál"⟩,
  ⟨421, 3, "4", "Rezervní fond ", "Pasiva", "Fondy"⟩,
  ⟨431, 2, "4", "HV ", "Pasiva", "Výsledek hospodaření"⟩,
  ⟨451, 3, "4", "Rezervy ", "Pasiva", "Rezervy"⟩,
  ⟨461, 3, "4", "Dlouhodobé závazky ", "Pasiva", "Dlouhodobé závazky"⟩,
  ⟨501, 8, "5", "Spotřeba ", "Náklady", "Spotřebované nákupy"⟩,
  ⟨511, 5, "5", "Služby ", "Náklady", "Služby"⟩,
  ⟨521, 5, "5", "Osobní náklady ", "Náklady", "Osobní náklady"⟩,
  ⟨531, 3, "5", "Daně a poplatky ", "Náklady", "Daně a poplatky"⟩,
  ⟨541, 5, "5", "Ostatní provozní N ", "Náklady", "Ostatní provozní náklady"⟩,
  ⟨551, 5, "5", "Odpisy ", "Náklady", "Odpisy"⟩,
  ⟨561, 5, "5", "Finanční náklady ", "Náklady", "Finanční náklady"⟩,
  ⟨591, 3, "5", "Daň z příjmů ", "Náklady", "Daně z příjmů"⟩,
  ⟨601, 5, "6", "Tržby za výrobky ", "Výnosy", "Tržby za vlastní výrobky"⟩,
  ⟨602, 5, "6", "Tržby za služby ", "Výnosy", "Tržby za služby"⟩,
  ⟨604, 5, "6", "Tržby za zboží ", "Výnosy", "Tržby za zboží"⟩,
  ⟨641, 5, "6", "Ostatní provozní V ", "Výnosy", "Ostatní provozní výnosy"⟩,
  ⟨661, 5, "6", "Finanční výnosy ", "Výnosy", "Finanční výnosy"⟩]

structure UcetRow where
  ucet_cislo : String
  ucet_nazev : String
  typ : String
  skupina : String
  trida : String
  stav : String
deriving DecidableEq, Inhabited

def stavyUcty : List String := ["aktivní", "aktivní", "neaktivní"]

/-- The expansion of the configuration table into (offset, group) pairs,
one per generated account row, in generation order. -/
def ucetBase : List (Nat × UcetGroup) :=
  uctyGroups.flatMap (fun g => (List.range g.count).map (fun j => (j, g)))

/-- `gen_ucty`: expand the fixed configuration table; only the status
column consumes randomness. -/
def gen_ucty (s : RState) : List UcetRow × RState :=
  mapState (fun (p : Nat × UcetGroup) s =>
    let (st, s') := choice stavyUcty s
    ({ ucet_cislo := zfill 3 (p.2.startNum + p.1),
       ucet_nazev := p.2.nameStem ++ toString (p.1 + 1),
       typ := p.2.typ,
       skupina := p.2.skupina,
       trida := p.2.trida,
       stav := st }, s')) ucetBase s

theorem gen_ucty_cisla (s : RState) :
    ((gen_ucty s).1).map (fun r => r.ucet_cislo)
      = ucetBase.map (fun p => zfill 3 (p.2.startNum + p.1)) := by
  apply mapState_map
  intro a s0
  rfl

/-- C1: the chart-of-accounts builder yields one row per configured
count (155 = the sum of all group counts), but the claim that the
account numbers have no duplicates is FALSE: the configured ranges
overlap (341..343 with 343..344, and 601..605 / 602..606 / 604..608),
so e.g. account number 343 is generated twice. -/
theorem c1_ucty_account_numbers (s : RState) :
    ((gen_ucty s).1).length = (uctyGroups.map (fun g => g.count)).sum ∧
    (((gen_ucty s).1).map (fun r => r.ucet_cislo)).count "343" = 2 ∧
    ¬ (((gen_ucty s).1).map (fun r => r.ucet_cislo)).Nodup := by
  refine ⟨?_, ?_, ?_⟩
  · rw [gen_ucty, mapState_length]
    decide
  · rw [gen_ucty_cisla]
    decide
  · rw [gen_ucty_cisla]
    decide

structure RegionRow where
  region_id : String
  region_nazev : String
  zeme : String
deriving DecidableEq, Inhabited

structure PobockaRow where
  pobocka_id : String
  pobocka_nazev : String
  adresa : String
  mesto : String
  region_id : String
  stav : String
deriving DecidableEq, Inhabited

/-- A cost-center row; `idx` is the generation index `i+1` (the numeric
part of `stredisko_id`), `parent_idx` the numeric part of the optional
parent reference. -/
structure StrediskoRow where
  idx : Nat
  stredisko_id : String
  stredisko_nazev : String
  typ : String
  parent_idx : Option Nat
  nadrazene_stredisko : Option String
  pobocka_id : String
  stav : String
deriving DecidableEq, Inhabited

def typyStredisek : List String :=
  ["Výroba", "Obchod", "Administrativa", "IT", "Logistika",
   "Finance", "Marketing", "HR", "Kvalita", "R&D"]

def stavyStrediska : List String := ["aktivní", "aktivní", "neaktivní"]

def strediskoRow (pobIds : List String) (i : Nat) (s : RState) :
    StrediskoRow × RState :=
  let typ := typyStredisek.getD (i % typyStredisek.length) ""
  let pr :=
    if 0 < i then
      let (p, s') := randint 1 (max 1 (i : ℤ)) s
      (some p.toNat, s')
    else (none, s)
  let par := pr.1
  let (pob, s2) := choice pobIds pr.2
  let (st, s3) := choice stavyStrediska s2
  ({ idx := i + 1,
     stredisko_id := "STR" ++ zfill 3 (i + 1),
     stredisko_nazev := typ ++ " - oddělení " ++ toString (i + 1),
     typ := typ,
     parent_idx := par,
     nadrazene_stredisko := par.map (fun p => "STR" ++ zfill 3 p),
     pobocka_id := pob,
     stav := st }, s3)

/-- `gen_strediska`: 50 cost centers; row `i` (for `i > 0`) points to a
parent drawn from `STR001 .. STR(max 1 i)`. -/
def gen_strediska (pobocky : List PobockaRow) (s : RState) :
    List StrediskoRow × RState :=
  mapState (strediskoRow (pobocky.map (fun p => p.pobocka_id)))
    (List.range 50) s

theorem strediskoRow_parent_lt (pobIds : List String) (i : Nat) (s : RState) :
    ∀ p, (strediskoRow pobIds i s).1.parent_idx = some p →
      p < (strediskoRow pobIds i s).1.idx := by
  intro p hp
  unfold strediskoRow at hp ⊢
  dsimp only at hp ⊢
  split at hp
  · rename_i hi
    simp only [randint, RState.next] at hp
    have h1 : (1 : ℤ) ≤ (i : ℤ) := by exact_mod_cast hi
    rw [max_eq_right h1] at hp
    have hspan : ((i : ℤ) - 1 + 1).toNat = i := by omega
    rw [hspan] at hp
    have hm : s.seq s.pos % i < i := Nat.mod_lt _ hi
    simp only [Option.some.injEq] at hp
    omega
  · simp at hp

/-- C6: every cost-center row with a parent reference has the parent's
generation index strictly below its own, so the hierarchy is acyclic by
construction. -/
theorem c6_strediska_parent_lt (pobocky : List PobockaRow) (s : RState) :
    ∀ r ∈ (gen_strediska pobocky s).1, ∀ p, r.parent_idx = some p → p < r.idx := by
  apply mapState_forall_mem
    (P := fun r : StrediskoRow => ∀ p, r.parent_idx = some p → p < r.idx)
  intro i s0
  exact strediskoRow_parent_lt _ i s0

/-- Example branch row used in witnesses. -/
def pobEx : PobockaRow :=
  { pobocka_id := "POB01", pobocka_nazev := "Pobočka Praha 1",
    adresa := "Ulice 1", mesto := "Praha 1", region_id := "REG01",
    stav := "aktivní" }

theorem c6_strediska_parent_lt_witness :
    ((gen_strediska [pobEx] sId).1.getD 1 default ∈ (gen_strediska [pobEx] sId).1) ∧
    ((gen_strediska [pobEx] sId).1.getD 1 default).parent_idx = some 1 ∧
    1 < ((gen_strediska [pobEx] sId).1.getD 1 default).idx :=
  ⟨by decide, by decide,
    c6_strediska_parent_lt [pobEx] sId _ (by decide) 1 (by decide)⟩

structure ZamestnanecRow where
  zamestnanec_id : String
  jmeno : String
  prijmeni : String
  stredisko_id : String
  pozice : String
  hruba_mzda : ℚ
  datum_nastupu : ℤ
  stav : String
  typ_uvazku : String
  email : String
deriving DecidableEq, Inhabited

structure MzdyRow where
  zamestnanec_id : String
  stredisko_id : String
  obdobi : String
  zakladni_mzda : ℚ
  odmeny : ℚ
  hruba_mzda_celkem : ℚ
  soc_pojisteni_zam : ℚ
  zdr_pojisteni_zam : ℚ
  soc_pojisteni_firma : ℚ
  zdr_pojisteni_firma : ℚ
  dan_z_prijmu : ℚ
  cista_mzda : ℚ
  celkove_naklady_firma : ℚ
deriving DecidableEq, Inhabited

/-- The 36 payroll periods: years 2023..2025 × months 1..12, in
generation order. -/
def obdobiList : List (Nat × Nat) :=
  (List.range 3).flatMap (fun y => (List.range 12).map (fun m => (2023 + y, m + 1)))

/-- One payroll row for an employee and a period.  Only the bonus
consumes randomness: `random.random()` is drawn first and, with
probability 0.2, `random.uniform(0, 0.15·gross)` follows. -/
def mzdaCell (e : ZamestnanecRow) (p : Nat × Nat) (s : RState) :
    MzdyRow × RState :=
  let hruba := e.hruba_mzda
  let soc_zam := round2 (hruba * 0.065)
  let zdr_zam := round2 (hruba * 0.045)
  let soc_firm := round2 (hruba * 0.248)
  let zdr_firm := round2 (hruba * 0.09)
  let dan := round2 (max 0 ((hruba - soc_zam - zdr_zam) * 0.15))
  let cista := round2 (hruba - soc_zam - zdr_zam - dan)
  let (q, s1) := randFloat01 s
  let od :=
    if q < 0.2 then
      let (u, s') := uniform 0 (hruba * 0.15) s1
      (round2 u, s')
    else ((0 : ℚ), s1)
  ({ zamestnanec_id := e.zamestnanec_id,
     stredisko_id := e.stredisko_id,
     obdobi := toString p.1 ++ "-" ++ zfill 2 p.2,
     zakladni_mzda := hruba,
     odmeny := od.1,
     hruba_mzda_celkem := hruba + od.1,
     soc_pojisteni_zam := soc_zam,
     zdr_pojisteni_zam := zdr_zam,
     soc_pojisteni_firma := soc_firm,
     zdr_pojisteni_firma := zdr_firm,
     dan_z_prijmu := dan,
     cista_mzda := cista + od.1 * 0.7,
     celkove_naklady_firma := round2 (hruba + od.1 + soc_firm + zdr_firm) }, od.2)

def mzdyEmpLoop : List ZamestnanecRow → RState → List MzdyRow × RState
  | [], s => ([], s)
  | e :: es, s =>
    let p := mapState (mzdaCell e) obdobiList s
    let q := mzdyEmpLoop es p.2
    (p.1 ++ q.1, q.2)

/-- `gen_mzdy`: one row per (active employee × month × year) for
2023..2025. -/
def gen_mzdy (zam : List ZamestnanecRow) (s : RState) :
    List MzdyRow × RState :=
  mzdyEmpLoop (zam.filter (fun e => e.stav == "Aktivní")) s

theorem mzdaCell_identity (e : ZamestnanecRow) (p : Nat × Nat) (s : RState)
    (h : isCents e.hruba_mzda) :
    (mzdaCell e p s).1.cista_mzda + (mzdaCell e p s).1.soc_pojisteni_zam
      + (mzdaCell e p s).1.zdr_pojisteni_zam + (mzdaCell e p s).1.dan_z_prijmu
      = (mzdaCell e p s).1.zakladni_mzda + 0.7 * (mzdaCell e p s).1.odmeny := by
  unfold mzdaCell
  dsimp only
  have hc : round2 (e.hruba_mzda - round2 (e.hruba_mzda * 0.065)
      - round2 (e.hruba_mzda * 0.045)
      - round2 (max 0 ((e.hruba_mzda - round2 (e.hruba_mzda * 0.065)
          - round2 (e.hruba_mzda * 0.045)) * 0.15)))
      = e.hruba_mzda - round2 (e.hruba_mzda * 0.065)
      - round2 (e.hruba_mzda * 0.045)
      - round2 (max 0 ((e.hruba_mzda - round2 (e.hruba_mzda * 0.065)
          - round2 (e.hruba_mzda * 0.045)) * 0.15)) :=
    round2_eq_self (isCents_sub (isCents_sub (isCents_sub h
      (isCents_round2 _)) (isCents_round2 _)) (isCents_round2 _))
  rw [hc]
  ring

theorem mzdyEmpLoop_identity (es : List ZamestnanecRow) (s : RState)
    (h : ∀ e ∈ es, isCents e.hruba_mzda) :
    ∀ r ∈ (mzdyEmpLoop es s).1,
      r.cista_mzda + r.soc_pojisteni_zam + r.zdr_pojisteni_zam + r.dan_z_prijmu
        = r.zakladni_mzda + 0.7 * r.odmeny := by
  induction es generalizing s with
  | nil => intro r hr; simp [mzdyEmpLoop] at hr
  | cons e es ih =>
    intro r hr
    simp only [mzdyEmpLoop, List.mem_append] at hr
    rcases hr with hr | hr
    · exact mapState_forall_mem
        (P := fun r : MzdyRow =>
          r.cista_mzda + r.soc_pojisteni_zam + r.zdr_pojisteni_zam + r.dan_z_prijmu
            = r.zakladni_mzda + 0.7 * r.odmeny)
        (mzdaCell e)
        (fun p s0 => mzdaCell_identity e p s0 (h e (by simp))) obdobiList s r hr
    · exact ih _ (fun x hx => h x (by simp [hx])) r hr

/-- Example employee used in the payroll claims. -/
def empEx : ZamestnanecRow :=
  { zamestnanec_id := "EMP0001", jmeno := "Jan", prijmeni := "Novak",
    stredisko_id := "STR001", pozice := "Analytik", hruba_mzda := 30000,
    datum_nastupu := 19358, stav := "Aktivní",
    typ_uvazku := "Plný úvazek", email := "jan@firma.cz" }

/-- C2 (counterexample): the claimed identity
net + employee social + employee health + tax ≈ gross + bonus fails on
the generated payroll table: the code adds only 70 % of the bonus into
net pay, so any row with a nonzero bonus is off by 0.3·bonus, far above
the 2-decimal rounding tolerance. -/
theorem c2_payroll_identity_counterexample :
    ¬ (∀ r ∈ (gen_mzdy [empEx] sId).1,
        |r.cista_mzda + r.soc_pojisteni_zam + r.zdr_pojisteni_zam
          + r.dan_z_prijmu - (r.zakladni_mzda + r.odmeny)| ≤ 1/100) := by
  decide

/-- C2 (amended): for every payroll row, net pay + employee social
contribution + employee health contribution + income tax equals
gross pay + 0.7 × bonus, exactly (given salaries on the cent grid, as
`round(uniform(...), 0)` guarantees in the source). -/
theorem c2_payroll_identity_amended (zam : List ZamestnanecRow) (s : RState)
    (hz : ∀ e ∈ zam, isCents e.hruba_mzda) :
    ∀ r ∈ (gen_mzdy zam s).1,
      r.cista_mzda + r.soc_pojisteni_zam + r.zdr_pojisteni_zam + r.dan_z_prijmu
        = r.zakladni_mzda + 0.7 * r.odmeny := by
  apply mzdyEmpLoop_identity
  intro e he
  exact hz e (List.mem_of_mem_filter he)

theorem c2_payroll_identity_amended_witness :
    (∀ e ∈ [empEx], isCents e.hruba_mzda) ∧
    (∀ r ∈ (gen_mzdy [empEx] sId).1,
      r.cista_mzda + r.soc_pojisteni_zam + r.zdr_pojisteni_zam + r.dan_z_prijmu
        = r.zakladni_mzda + 0.7 * r.odmeny) := by
  have hz : ∀ e ∈ [empEx], isCents e.hruba_mzda := by
    intro e he
    simp only [List.mem_singleton] at he
    subst he
    exact ⟨3000000, by norm_num [empEx]⟩
  exact ⟨hz, c2_payroll_identity_amended [empEx] sId hz⟩

theorem obdobiList_length : obdobiList.length = 36 := by decide

theorem mzdyEmpLoop_length : ∀ (es : List ZamestnanecRow) (s : RState),
    ((mzdyEmpLoop es s).1).length = es.length * 36 := by
  intro es
  induction es with
  | nil => intro s; rfl
  | cons e es ih =>
    intro s
    simp only [mzdyEmpLoop, List.length_append, List.length_cons]
    rw [mapState_length, obdobiList_length, ih]
    ring

theorem sample_length [Inhabited α] :
    ∀ (k : Nat) (l : List α) (s : RState), k ≤ l.length →
      ((sample l k s).1).length = k := by
  intro k
  induction k with
  | zero => intro l s _; rfl
  | succ k ih =>
    intro l s h
    have hne : l.isEmpty = false := by
      cases l with
      | nil => simp at h
      | cons a as => rfl
    simp only [sample, hne, Bool.false_eq_true, if_false, List.length_cons]
    have hlen : 0 < l.length := by
      cases l with
      | nil => simp at h
      | cons a as => simp
    have hi : (RState.next s).1 % l.length < l.length := Nat.mod_lt _ hlen
    rw [ih _ _ (by rw [List.length_eraseIdx_of_lt hi]; omega)]

structure BudgetRow where
  stredisko_id : String
  ucet_cislo : String
  obdobi : String
  plan : ℚ
  skutecnost : ℚ
  odchylka : ℚ
  odchylka_pct : ℚ
deriving DecidableEq, Inhabited

/-- Python `round(x, 1)` (the variance percentage). -/
def round1 (x : ℚ) : ℚ := roundD 1 x

/-- One budget row for (cost center, account, period). -/
def budgetCell (strid ucet : String) (p : Nat × Nat) (s : RState) :
    BudgetRow × RState :=
  let (u1, s1) := uniform 5000 500000 s
  let plan := round2 u1
  let (u2, s2) := uniform 0.7 1.3 s1
  let skut := round2 (plan * u2)
  ({ stredisko_id := strid,
     ucet_cislo := ucet,
     obdobi := toString p.1 ++ "-" ++ zfill 2 p.2,
     plan := plan,
     skutecnost := skut,
     odchylka := round2 (skut - plan),
     odchylka_pct := round1 ((skut - plan) / plan * 100) }, s2)

def budgetUcetLoop (strid : String) : List String → RState → List BudgetRow × RState
  | [], s => ([], s)
  | u :: us, s =>
    let p := mapState (budgetCell strid u) obdobiList s
    let q := budgetUcetLoop strid us p.2
    (p.1 ++ q.1, q.2)

def budgetStrLoop (bu : List String) : List String → RState → List BudgetRow × RState
  | [], s => ([], s)
  | strid :: rest, s =>
    let (sel, s1) := sample bu (min 8 bu.length) s
    let p := budgetUcetLoop strid sel s1
    let q := budgetStrLoop bu rest p.2
    (p.1 ++ q.1, q.2)

/-- The eligible budgeting accounts: cost and revenue accounts. -/
def budgetEligible (ucty : List UcetRow) : List String :=
  (ucty.filter (fun u => u.typ == "Náklady" || u.typ == "Výnosy")).map
    (fun u => u.ucet_cislo)

/-- `gen_budget`: per cost center, a fresh sample of at most 8 of the
(at most 40) eligible accounts, and for each a row per month of
2023..2025. -/
def gen_budget (strediska : List StrediskoRow) (ucty : List UcetRow)
    (s : RState) : List BudgetRow × RState :=
  let str_list := strediska.map (fun r => r.stredisko_id)
  let bu0 := budgetEligible ucty
  let bs := if 40 < bu0.length then sample bu0 40 s else (bu0, s)
  budgetStrLoop bs.1 str_list bs.2

theorem budgetUcetLoop_length (strid : String) :
    ∀ (us : List String) (s : RState),
      ((budgetUcetLoop strid us s).1).length = us.length * 36 := by
  intro us
  induction us with
  | nil => intro s; rfl
  | cons u us ih =>
    intro s
    simp only [budgetUcetLoop, List.length_append, List.length_cons]
    rw [mapState_length, obdobiList_length, ih]
    ring

theorem budgetStrLoop_length (bu : List String) :
    ∀ (strs : List String) (s : RState),
      ((budgetStrLoop bu strs s).1).length = strs.length * (min 8 bu.length * 36) := by
  intro strs
  induction strs with
  | nil => intro s; simp [budgetStrLoop]
  | cons strid rest ih =>
    intro s
    simp only [budgetStrLoop, List.length_append, List.length_cons]
    rw [budgetUcetLoop_length, ih,
      sample_length _ _ _ (Nat.min_le_right 8 bu.length)]
    ring

/-- C4: the payroll table has (active employee count × 36) rows and the
budget table has (cost-center count × min(8, eligible cost/revenue
account count) × 36) rows. -/
theorem c4_cross_product_counts (zam : List ZamestnanecRow) (s1 : RState)
    (strediska : List StrediskoRow) (ucty : List UcetRow) (s2 : RState) :
    ((gen_mzdy zam s1).1).length
      = (zam.filter (fun e => e.stav == "Aktivní")).length * 36 ∧
    ((gen_budget strediska ucty s2).1).length
      = strediska.length * min 8 (budgetEligible ucty).length * 36 := by
  constructor
  · exact mzdyEmpLoop_length _ s1
  · unfold gen_budget
    dsimp only
    split
    · rename_i h40
      rw [budgetStrLoop_length, List.length_map,
        sample_length _ _ _ (le_of_lt h40)]
      have : min 8 (budgetEligible ucty).length = 8 := by omega
      rw [this]
      have : min 8 (40 : Nat) = 8 := by omega
      rw [this]
      ring
    · rw [budgetStrLoop_length, List.length_map]
      ring

theorem budgetCell_plan_bounds (strid ucet : String) (p : Nat × Nat) (s : RState) :
    5000 ≤ (budgetCell strid ucet p s).1.plan ∧
      (budgetCell strid ucet p s).1.plan ≤ 500000 := by
  unfold budgetCell uniform randFloat01 RState.next
  dsimp only
  have hq0 : 0 ≤ ((s.seq s.pos % 1000 : ℕ) : ℚ) / 1000 := by positivity
  have hq1 : ((s.seq s.pos % 1000 : ℕ) : ℚ) / 1000 ≤ 1 := by
    rw [div_le_one (by norm_num)]
    have : s.seq s.pos % 1000 < 1000 := Nat.mod_lt _ (by norm_num)
    exact_mod_cast le_of_lt this
  constructor
  · have h5 : ((5000 : ℤ) : ℚ) ≤ 5000
        + ((s.seq s.pos % 1000 : ℕ) : ℚ) / 1000 * (500000 - 5000) := by
      push_cast
      nlinarith
    have := intCast_le_round2 h5
    exact_mod_cast this
  · have h5 : (5000 : ℚ)
        + ((s.seq s.pos % 1000 : ℕ) : ℚ) / 1000 * (500000 - 5000)
        ≤ ((500000 : ℤ) : ℚ) := by
      push_cast
      nlinarith
    have := round2_le_intCast h5
    exact_mod_cast this

theorem budgetUcetLoop_plan (strid : String) :
    ∀ (us : List String) (s : RState),
      ∀ r ∈ (budgetUcetLoop strid us s).1,
        5000 ≤ r.plan ∧ r.plan ≤ 500000 := by
  intro us
  induction us with
  | nil => intro s r hr; simp [budgetUcetLoop] at hr
  | cons u us ih =>
    intro s r hr
    simp only [budgetUcetLoop, List.mem_append] at hr
    rcases hr with hr | hr
    · exact mapState_forall_mem
        (P := fun r : BudgetRow => 5000 ≤ r.plan ∧ r.plan ≤ 500000)
        (budgetCell strid u)
        (fun p s0 => budgetCell_plan_bounds strid u p s0) obdobiList s r hr
    · exact ih _ r hr

theorem budgetStrLoop_plan (bu : List String) :
    ∀ (strs : List String) (s : RState),
      ∀ r ∈ (budgetStrLoop bu strs s).1,
        5000 ≤ r.plan ∧ r.plan ≤ 500000 := by
  intro strs
  induction strs with
  | nil => intro s r hr; simp [budgetStrLoop] at hr
  | cons strid rest ih =>
    intro s r hr
    simp only [budgetStrLoop, List.mem_append] at hr
    rcases hr with hr | hr
    · exact budgetUcetLoop_plan strid _ _ r hr
    · exact ih _ r hr

/-- C10: every budget row's planned amount lies in [5000, 500000], so
it is nonzero and the variance-percentage division is never by zero. -/
theorem c10_budget_plan_bounds (strediska : List StrediskoRow)
    (ucty : List UcetRow) (s : RState) :
    ∀ r ∈ (gen_budget strediska ucty s).1,
      5000 ≤ r.plan ∧ r.plan ≤ 500000 ∧ r.plan ≠ 0 := by
  intro r hr
  have h := budgetStrLoop_plan _ _ _ r hr
  refine ⟨h.1, h.2, ?_⟩
  have : (0 : ℚ) < r.plan := by linarith [h.1]
  exact this.ne'

/-- Example cost-center row used in witnesses. -/
def strEx : StrediskoRow :=
  { idx := 1, stredisko_id := "STR001",
    stredisko_nazev := "Výroba - oddělení 1", typ := "Výroba",
    parent_idx := none, nadrazene_stredisko := none,
    pobocka_id := "POB01", stav := "aktivní" }

/-- Example cost account used in witnesses. -/
def ucetNakladEx : UcetRow :=
  { ucet_cislo := "501", ucet_nazev := "Spotřeba 1", typ := "Náklady",
    skupina := "Spotřebované nákupy", trida := "5", stav := "aktivní" }

theorem c10_budget_plan_bounds_witness :
    ((gen_budget [strEx] [ucetNakladEx] sId).1.getD 0 default
      ∈ (gen_budget [strEx] [ucetNakladEx] sId).1) ∧
    (5000 ≤ ((gen_budget [strEx] [ucetNakladEx] sId).1.getD 0 default).plan ∧
      ((gen_budget [strEx] [ucetNakladEx] sId).1.getD 0 default).plan ≤ 500000 ∧
      ((gen_budget [strEx] [ucetNakladEx] sId).1.getD 0 default).plan ≠ 0) :=
  ⟨by decide, c10_budget_plan_bounds [strEx] [ucetNakladEx] sId _ (by decide)⟩

structure ProduktRow where
  produkt_id : String
  produkt_nazev : String
  kategorie : String
  prodejni_cena : ℚ
  nakladova_cena : ℚ
  jednotka : String
  stav : String
deriving DecidableEq, Inhabited

structure ZakaznikRow where
  zakaznik_id : String
  zakaznik_nazev : String
  segment : String
  region_id : String
  adresa : String
  mesto : String
  stav : String
  kreditni_limit : ℚ
  platebni_podminky : String
deriving DecidableEq, Inhabited

structure DodavatelRow where
  dodavatel_id : String
  dodavatel_nazev : String
  kategorie : String
  hodnoceni : String
  adresa : String
  mesto : String
  zeme : String
  stav : String
  platebni_podminky : String
deriving DecidableEq, Inhabited

structure ProdejRow where
  faktura_id : String
  datum : ℤ
  zakaznik_id : String
  produkt_id : String
  mnozstvi : ℤ
  jednotkova_cena : ℚ
  sleva_pct : ℚ
  celkem_bez_dph : ℚ
  dph_sazba : ℚ
  dph_castka : ℚ
  celkem_s_dph : ℚ
  nakladova_cena_celkem : ℚ
  pobocka_id : String
  kanal : String
  stav_platby : String
  mena : String
deriving DecidableEq, Inhabited

def slevyProdej : List Nat := [0, 0, 0, 0, 5, 10, 15, 20]
def dphProdej : List ℚ := [0.21, 0.15, 0.10]
def kanalyProdej : List String :=
  ["E-shop", "Pobočka", "Telefon", "B2B portál", "Obchodní zástupce"]
def stavyPlatby : List String :=
  ["Zaplaceno", "Zaplaceno", "Zaplaceno", "Nezaplaceno", "Částečně", "Storno"]
def menyProdej : List String :=
  List.replicate 85 "CZK" ++ List.replicate 15 "EUR"

/-- One sales row for (date, row index). -/
def prodejRow (zak_list : List String) (produkty : List ProduktRow)
    (pob_list : List String) (a : Nat × ℤ) (s : RState) :
    ProdejRow × RState :=
  let (i, datum) := a
  let (prod, s1) := choice produkty s
  let (mn, s2) := randint 1 100 s1
  let cena := prod.prodejni_cena
  let (sl, s3) := choice slevyProdej s2
  let sleva := (sl : ℚ) / 100
  let (dph, s4) := choice dphProdej s3
  let celkem := round2 ((mn : ℚ) * cena * (1 - sleva))
  let (zak, s5) := choice zak_list s4
  let (pob, s6) := choice pob_list s5
  let (kan, s7) := choice kanalyProdej s6
  let (stav, s8) := choice stavyPlatby s7
  let (mena, s9) := choice menyProdej s8
  ({ faktura_id := "FAV" ++ zfill 7 (i + 1),
     datum := datum,
     zakaznik_id := zak,
     produkt_id := prod.produkt_id,
     mnozstvi := mn,
     jednotkova_cena := cena,
     sleva_pct := sleva,
     celkem_bez_dph := celkem,
     dph_sazba := dph,
     dph_castka := round2 (celkem * dph),
     celkem_s_dph := round2 (celkem * (1 + dph)),
     nakladova_cena_celkem := round2 ((mn : ℚ) * prod.nakladova_cena),
     pobocka_id := pob,
     kanal := kan,
     stav_platby := stav,
     mena := mena }, s9)

/-- `gen_prodeje`: `n` sales rows over seasonally distributed dates. -/
def gen_prodeje (zakaznici : List ZakaznikRow) (produkty : List ProduktRow)
    (pobocky : List PobockaRow) (n : Nat) (s : RState) :
    List ProdejRow × RState :=
  let dp := seasonal_dates n DATE_START DATE_END s
  mapState (prodejRow (zakaznici.map (fun z => z.zakaznik_id)) produkty
    (pobocky.map (fun p => p.pobocka_id))) dp.1.enum dp.2

structure NakupRow where
  objednavka_id : String
  datum : ℤ
  dodavatel_id : String
  typ_polozky : String
  mnozstvi : ℤ
  jednotkova_cena : ℚ
  celkem_bez_dph : ℚ
  dph_sazba : ℚ
  dph_castka : ℚ
  celkem_s_dph : ℚ
  stredisko_id : String
  stav : String
  mena : String
deriving DecidableEq, Inhabited

def typyPolozek : List String :=
  ["Materiál", "Služba", "Energie", "Náhradní díly", "Kancelářské potřeby",
   "IT vybavení", "Software licence", "Doprava", "Údržba", "Suroviny"]
def dphNakup : List ℚ := [0.21, 0.15, 0.10, 0.0]
def stavyNakup : List String :=
  ["Schváleno", "Schváleno", "Přijato", "Částečně přijato", "Reklamace", "Koncept"]
def menyNakup : List String :=
  List.replicate 85 "CZK" ++ List.replicate 10 "EUR" ++ List.replicate 5 "USD"

/-- One purchase row for (date, row index). -/
def nakupRow (dod_list : List String) (str_list : List String)
    (a : Nat × ℤ) (s : RState) : NakupRow × RState :=
  let (i, datum) := a
  let (mn, s1) := randint 1 500 s
  let (u, s2) := uniform 20 25000 s1
  let cena := round2 u
  let (dph, s3) := choice dphNakup s2
  let celkem := round2 ((mn : ℚ) * cena)
  let (dod, s4) := choice dod_list s3
  let (typ, s5) := choice typyPolozek s4
  let (strid, s6) := choice str_list s5
  let (stav, s7) := choice stavyNakup s6
  let (mena, s8) := choice menyNakup s7
  ({ objednavka_id := "OBJ" ++ zfill 6 (i + 1),
     datum := datum,
     dodavatel_id := dod,
     typ_polozky := typ,
     mnozstvi := mn,
     jednotkova_cena := cena,
     celkem_bez_dph := celkem,
     dph_sazba := dph,
     dph_castka := round2 (celkem * dph),
     celkem_s_dph := round2 (celkem * (1 + dph)),
     stredisko_id := strid,
     stav := stav,
     mena := mena }, s8)

/-- `gen_nakupy`: `n` purchase rows over uniformly distributed dates
(the `produkty` argument is accepted and unused, as in the source). -/
def gen_nakupy (dodavatele : List DodavatelRow) (produkty : List ProduktRow)
    (strediska : List StrediskoRow) (n : Nat) (s : RState) :
    List NakupRow × RState :=
  let dp := random_dates n DATE_START DATE_END s
  mapState (nakupRow (dodavatele.map (fun d => d.dodavatel_id))
    (strediska.map (fun r => r.stredisko_id))) dp.1.enum dp.2

theorem prodejRow_vat (zak_list : List String) (produkty : List ProduktRow)
    (pob_list : List String) (a : Nat × ℤ) (s : RState) :
    |(prodejRow zak_list produkty pob_list a s).1.celkem_s_dph
        - (prodejRow zak_list produkty pob_list a s).1.celkem_bez_dph
          * (1 + (prodejRow zak_list produkty pob_list a s).1.dph_sazba)| ≤ 1/100 ∧
    |(prodejRow zak_list produkty pob_list a s).1.dph_castka
        - (prodejRow zak_list produkty pob_list a s).1.celkem_bez_dph
          * (prodejRow zak_list produkty pob_list a s).1.dph_sazba| ≤ 1/100 := by
  obtain ⟨i, datum⟩ := a
  unfold prodejRow
  dsimp only
  constructor
  · exact le_trans (abs_round2_sub _) (by norm_num)
  · exact le_trans (abs_round2_sub _) (by norm_num)

theorem nakupRow_vat (dod_list str_list : List String) (a : Nat × ℤ) (s : RState) :
    |(nakupRow dod_list str_list a s).1.celkem_s_dph
        - (nakupRow dod_list str_list a s).1.celkem_bez_dph
          * (1 + (nakupRow dod_list str_list a s).1.dph_sazba)| ≤ 1/100 ∧
    |(nakupRow dod_list str_list a s).1.dph_castka
        - (nakupRow dod_list str_list a s).1.celkem_bez_dph
          * (nakupRow dod_list str_list a s).1.dph_sazba| ≤ 1/100 := by
  obtain ⟨i, datum⟩ := a
  unfold nakupRow
  dsimp only
  constructor
  · exact le_trans (abs_round2_sub _) (by norm_num)
  · exact le_trans (abs_round2_sub _) (by norm_num)

/-- C8: in every sales and purchase row, the gross total equals the net
total × (1 + VAT rate) and the VAT amount equals the net total × VAT
rate, within 2-decimal rounding tolerance. -/
theorem c8_vat_identities (zakaznici : List ZakaznikRow)
    (produkty : List ProduktRow) (pobocky : List PobockaRow)
    (dodavatele : List DodavatelRow) (strediska : List StrediskoRow)
    (n m : Nat) (s1 s2 : RState) :
    (∀ r ∈ (gen_prodeje zakaznici produkty pobocky n s1).1,
      |r.celkem_s_dph - r.celkem_bez_dph * (1 + r.dph_sazba)| ≤ 1/100 ∧
      |r.dph_castka - r.celkem_bez_dph * r.dph_sazba| ≤ 1/100) ∧
    (∀ r ∈ (gen_nakupy dodavatele produkty strediska m s2).1,
      |r.celkem_s_dph - r.celkem_bez_dph * (1 + r.dph_sazba)| ≤ 1/100 ∧
      |r.dph_castka - r.celkem_bez_dph * r.dph_sazba| ≤ 1/100) := by
  constructor
  · exact mapState_forall_mem
      (P := fun r : ProdejRow =>
        |r.celkem_s_dph - r.celkem_bez_dph * (1 + r.dph_sazba)| ≤ 1/100 ∧
        |r.dph_castka - r.celkem_bez_dph * r.dph_sazba| ≤ 1/100)
      _ (fun a s0 => prodejRow_vat _ produkty _ a s0) _ _
  · exact mapState_forall_mem
      (P := fun r : NakupRow =>
        |r.celkem_s_dph - r.celkem_bez_dph * (1 + r.dph_sazba)| ≤ 1/100 ∧
        |r.dph_castka - r.celkem_bez_dph * r.dph_sazba| ≤ 1/100)
      _ (fun a s0 => nakupRow_vat _ _ a s0) _ _

/-- Example customer, product and supplier rows used in witnesses. -/
def zakEx : ZakaznikRow :=
  { zakaznik_id := "CUS0001", zakaznik_nazev := "Firma Alfa",
    segment := "SMB", region_id := "REG01", adresa := "Ulice 2",
    mesto := "Praha 1", stav := "Aktivní", kreditni_limit := 100000,
    platebni_podminky := "NET30" }

def prodEx : ProduktRow :=
  { produkt_id := "PRD0001", produkt_nazev := "Výrobek Beta",
    kategorie := "Elektronika", prodejni_cena := 1000,
    nakladova_cena := 600, jednotka := "ks", stav := "Aktivní" }

def dodEx : DodavatelRow :=
  { dodavatel_id := "SUP001", dodavatel_nazev := "Dodavatel Gama",
    kategorie := "Materiál", hodnoceni := "A", adresa := "Ulice 3",
    mesto := "Brno-střed", zeme := "CZ", stav := "Aktivní",
    platebni_podminky := "NET30" }

theorem c8_vat_identities_witness :
    (((gen_prodeje [zakEx] [prodEx] [pobEx] 1 sId).1.getD 0 default
        ∈ (gen_prodeje [zakEx] [prodEx] [pobEx] 1 sId).1) ∧
      (|((gen_prodeje [zakEx] [prodEx] [pobEx] 1 sId).1.getD 0 default).celkem_s_dph
          - ((gen_prodeje [zakEx] [prodEx] [pobEx] 1 sId).1.getD 0 default).celkem_bez_dph
            * (1 + ((gen_prodeje [zakEx] [prodEx] [pobEx] 1 sId).1.getD 0 default).dph_sazba)| ≤ 1/100 ∧
        |((gen_prodeje [zakEx] [prodEx] [pobEx] 1 sId).1.getD 0 default).dph_castka
          - ((gen_prodeje [zakEx] [prodEx] [pobEx] 1 sId).1.getD 0 default).celkem_bez_dph
            * ((gen_prodeje [zakEx] [prodEx] [pobEx] 1 sId).1.getD 0 default).dph_sazba| ≤ 1/100)) ∧
    (((gen_nakupy [dodEx] [prodEx] [strEx] 1 sId).1.getD 0 default
        ∈ (gen_nakupy [dodEx] [prodEx] [strEx] 1 sId).1) ∧
      (|((gen_nakupy [dodEx] [prodEx] [strEx] 1 sId).1.getD 0 default).celkem_s_dph
          - ((gen_nakupy [dodEx] [prodEx] [strEx] 1 sId).1.getD 0 default).celkem_bez_dph
            * (1 + ((gen_nakupy [dodEx] [prodEx] [strEx] 1 sId).1.getD 0 default).dph_sazba)| ≤ 1/100 ∧
        |((gen_nakupy [dodEx] [prodEx] [strEx] 1 sId).1.getD 0 default).dph_castka
          - ((gen_nakupy [dodEx] [prodEx] [strEx] 1 sId).1.getD 0 default).celkem_bez_dph
            * ((gen_nakupy [dodEx] [prodEx] [strEx] 1 sId).1.getD 0 default).dph_sazba| ≤ 1/100)) :=
  ⟨⟨by decide,
    (c8_vat_identities [zakEx] [prodEx] [pobEx] [dodEx] [strEx] 1 1 sId sId).1
      _ (by decide)⟩,
   ⟨by decide,
    (c8_vat_identities [zakEx] [prodEx] [pobEx] [dodEx] [strEx] 1 1 sId sId).2
      _ (by decide)⟩⟩

structure TxRow where
  transakce_id : String
  datum : ℤ
  typ_dokladu : String
  castka : ℚ
  mena : String
  kurz : ℚ
  castka_czk : ℚ
  dph_sazba : ℚ
  dph_castka : ℚ
  ucet_md : String
  ucet_dal : String
  stredisko_id : String
  projekt_id : String
  profit_centrum_id : String
  pobocka_id : String
  popis : String
  stav : String
  uzivatel : String
deriving DecidableEq, Inhabited

def typyDokladu : List String :=
  ["FAP", "FAP", "FAV", "FAV", "FAV", "PPD", "VPD", "BV", "BV", "INT",
   "OPR", "ZAL", "DOB", "STR"]
def menyTx : List String :=
  List.replicate 80 "CZK" ++ List.replicate 15 "EUR" ++ List.replicate 5 "USD"
def dphSazbyTx : List ℚ := [0.21, 0.21, 0.21, 0.15, 0.15, 0.10, 0.0]

/-- The fixed FX-rate table. -/
def kurzy (mena : String) : ℚ :=
  if mena = "EUR" then 24.5 else if mena = "USD" then 22.8 else 1

def stavyTx : List String :=
  ["Zaúčtováno", "Zaúčtováno", "Zaúčtováno", "Koncept", "Storno"]

/-- One amount of the pre-drawn chunk amount vector: the log-normal
draw is abstracted to a state-determined value; the source's
`.round(2)` and clip to `[10, 5·10^7]` are kept. -/
def randAmount (s : RState) : ℚ × RState :=
  let (r, s') := s.next
  (max 10 (min 50000000 (round2 ((r : ℚ) / 100))), s')

/-- The `while ucet_dal == ucet_md` rejection loop, with fuel. -/
def whileNe (l : List String) (md : String) :
    Nat → String → RState → Option (String × RState)
  | 0, cur, s => if cur = md then none else some (cur, s)
  | f + 1, cur, s =>
    if cur = md then
      match choiceO l s with
      | none => none
      | some (y, s') => whileNe l md f y s'
    else some (cur, s)

theorem whileNe_ne (l : List String) (md : String) :
    ∀ (fuel : Nat) (cur : String) (s : RState) (y : String) (s' : RState),
      whileNe l md fuel cur s = some (y, s') → y ≠ md := by
  intro fuel
  induction fuel with
  | zero =>
    intro cur s y s' h
    unfold whileNe at h
    split at h
    · exact Option.noConfusion h
    · rename_i hcur
      simp only [Option.some.injEq, Prod.mk.injEq] at h
      rw [← h.1]
      exact hcur
  | succ f ih =>
    intro cur s y s' h
    unfold whileNe at h
    split at h
    · rcases hch : choiceO l s with _ | ⟨y0, s0⟩ <;> rw [hch] at h
      · exact Option.noConfusion h
      · exact ih y0 s0 y s' h
    · rename_i hcur
      simp only [Option.some.injEq, Prod.mk.injEq] at h
      rw [← h.1]
      exact hcur

/-- Draw the debit account, then the credit account with the rejection
loop guaranteeing distinctness. -/
def pickUcty (ucet_list : List String) (fuel : Nat) (s : RState) :
    Option ((String × String) × RState) :=
  match choiceO ucet_list s with
  | none => none
  | some (md, s1) =>
    match choiceO ucet_list s1 with
    | none => none
    | some (dal0, s2) =>
      match whileNe ucet_list md fuel dal0 s2 with
      | none => none
      | some (dal, s3) => some ((md, dal), s3)

theorem pickUcty_ne (ucet_list : List String) (fuel : Nat) (s : RState)
    (md dal : String) (s' : RState)
    (h : pickUcty ucet_list fuel s = some ((md, dal), s')) : md ≠ dal := by
  unfold pickUcty at h
  split at h
  · exact Option.noConfusion h
  rename_i md0 s1 heq1
  split at h
  · exact Option.noConfusion h
  rename_i dal0 s2 heq2
  split at h
  · exact Option.noConfusion h
  rename_i dal1 s3 heq3
  simp only [Option.some.injEq, Prod.mk.injEq] at h
  have hne := whileNe_ne ucet_list md0 fuel dal0 s2 dal1 s3 heq3
  rw [← h.1.1, ← h.1.2]
  exact fun he => hne he.symm

/-- One transaction row for (row id, (date, pre-drawn amount)). -/
def txRow (ucet_list str_list proj_list pc_list pob_list : List String)
    (fuel : Nat) (a : Nat × ℤ × ℚ) (s0 : RState) :
    Option (TxRow × RState) :=
  let (txId, datum, castka) := a
  let (mena, s1) := choice menyTx s0
  let (sazba, s2) := choice dphSazbyTx s1
  let dph := round2 (castka * sazba)
  let (typD, s3) := choice typyDokladu s2
  match pickUcty ucet_list fuel s3 with
  | none => none
  | some ((md, dal), s4) =>
    match choiceO str_list s4 with
    | none => none
    | some (strid, s5) =>
      match choiceO proj_list s5 with
      | none => none
      | some (proj, s6) =>
        match choiceO pc_list s6 with
        | none => none
        | some (pc, s7) =>
          match choiceO pob_list s7 with
          | none => none
          | some (pob, s8) =>
            let (q, s9) := randFloat01 s8
            let pp :=
              if q < 0.3 then
                let (t, s') := fakeText "Popis " s9
                (t.take 60, s')
              else ("", s9)
            let (stav, s11) := choice stavyTx pp.2
            let (usr, s12) := randint 1 50 s11
            some ({ transakce_id := "TX" ++ zfill 7 txId,
                    datum := datum,
                    typ_dokladu := typD,
                    castka := castka,
                    mena := mena,
                    kurz := kurzy mena,
                    castka_czk := round2 (castka * kurzy mena),
                    dph_sazba := sazba,
                    dph_castka := dph,
                    ucet_md := md,
                    ucet_dal := dal,
                    stredisko_id := strid,
                    projekt_id := proj,
                    profit_centrum_id := pc,
                    pobocka_id := pob,
                    popis := pp.1,
                    stav := stav,
                    uzivatel := "USR" ++ zfill 3 usr.toNat }, s12)

theorem txRow_md_ne_dal (ucet_list str_list proj_list pc_list pob_list : List String)
    (fuel : Nat) (a : Nat × ℤ × ℚ) (s0 : RState) (r : TxRow) (s' : RState)
    (h : txRow ucet_list str_list proj_list pc_list pob_list fuel a s0
      = some (r, s')) : r.ucet_md ≠ r.ucet_dal := by
  obtain ⟨txId, datum, castka⟩ := a
  unfold txRow at h
  dsimp only at h
  split at h
  · exact Option.noConfusion h
  rename_i md dal s4 heq1
  split at h
  · exact Option.noConfusion h
  rename_i strid s5 heq2
  split at h
  · exact Option.noConfusion h
  rename_i proj s6 heq3
  split at h
  · exact Option.noConfusion h
  rename_i pc s7 heq4
  split at h
  · exact Option.noConfusion h
  rename_i pob s8 heq5
  simp only [Option.some.injEq, Prod.mk.injEq] at h
  rw [← h.1]
  exact pickUcty_ne _ _ _ _ _ _ heq1

structure ProjektRow where
  projekt_id : String
  projekt_nazev : String
  stav : String
  rozpocet : ℚ
  datum_zahajeni : ℤ
  datum_ukonceni : ℤ
  typ : String
deriving DecidableEq, Inhabited

structure ProfitCentrumRow where
  profit_centrum_id : String
  nazev : String
  region_id : String
  manazer : String
  stav : String
  rocni_cil : ℚ
deriving DecidableEq, Inhabited

/-- One 50000-row chunk of transactions: the dates and amounts are
pre-drawn vectors, the rows are then generated pairwise. -/
def txChunk (ucet_list str_list proj_list pc_list pob_list : List String)
    (fuel : Nat) (dates : List ℤ) (castky : List ℚ) (txId : Nat)
    (s : RState) : Option (List TxRow × RState) :=
  mapStateO (txRow ucet_list str_list proj_list pc_list pob_list fuel)
    ((dates.zip castky).enum.map (fun q => (txId + q.1, q.2))) s

/-- The chunked generation loop of `gen_transakce`.  The first argument
counts down the remaining chunks and only bounds the recursion; the
chunk sizes are `min 50000 remaining`, exactly as in the source. -/
def txLoop (ucet_list str_list proj_list pc_list pob_list : List String)
    (fuel : Nat) : Nat → Nat → Nat → RState → Option (List TxRow × RState)
  | 0, _, _, s => some ([], s)
  | c + 1, remaining, txId, s =>
    if remaining = 0 then some ([], s)
    else
      let cn := min 50000 remaining
      let dp := seasonal_dates cn DATE_START DATE_END s
      let cp := mapState (fun _ : Nat => randAmount) (List.range cn) dp.2
      match txChunk ucet_list str_list proj_list pc_list pob_list fuel
          dp.1 cp.1 txId cp.2 with
      | none => none
      | some (rows, s3) =>
        match txLoop ucet_list str_list proj_list pc_list pob_list fuel
            c (remaining - cn) (txId + cn) s3 with
        | none => none
        | some (rest, s4) => some (rows ++ rest, s4)

/-- `gen_transakce`: `n` accounting transactions in chunks of 50000. -/
def gen_transakce (ucty : List UcetRow) (strediska : List StrediskoRow)
    (projekty : List ProjektRow) (profit_centra : List ProfitCentrumRow)
    (pobocky : List PobockaRow) (n fuel : Nat) (s : RState) :
    Option (List TxRow × RState) :=
  txLoop (ucty.map (fun u => u.ucet_cislo))
    (strediska.map (fun r => r.stredisko_id))
    (projekty.map (fun p => p.projekt_id))
    (profit_centra.map (fun p => p.profit_centrum_id))
    (pobocky.map (fun p => p.pobocka_id))
    fuel n n 1 s

theorem txChunk_md_ne_dal (ucet_list str_list proj_list pc_list pob_list : List String)
    (fuel : Nat) (dates : List ℤ) (castky : List ℚ) (txId : Nat)
    (s : RState) (rows : List TxRow) (s' : RState)
    (h : txChunk ucet_list str_list proj_list pc_list pob_list fuel
      dates castky txId s = some (rows, s')) :
    ∀ r ∈ rows, r.ucet_md ≠ r.ucet_dal :=
  mapStateO_forall_mem
    (P := fun r : TxRow => r.ucet_md ≠ r.ucet_dal)
    (txRow ucet_list str_list proj_list pc_list pob_list fuel)
    (fun a s0 r s1 ha =>
      txRow_md_ne_dal ucet_list str_list proj_list pc_list pob_list fuel a s0 r s1 ha)
    _ _ rows s' h

theorem txLoop_md_ne_dal (ucet_list str_list proj_list pc_list pob_list : List String)
    (fuel : Nat) : ∀ (c remaining txId : Nat) (s : RState)
      (rows : List TxRow) (s' : RState),
      txLoop ucet_list str_list proj_list pc_list pob_list fuel
        c remaining txId s = some (rows, s') →
      ∀ r ∈ rows, r.ucet_md ≠ r.ucet_dal := by
  intro c
  induction c with
  | zero =>
    intro rem txId s rows s' h r hr
    simp only [txLoop, Option.some.injEq, Prod.mk.injEq] at h
    rw [← h.1] at hr
    simp at hr
  | succ c ih =>
    intro rem txId s rows s' h r hr
    unfold txLoop at h
    split at h
    · simp only [Option.some.injEq, Prod.mk.injEq] at h
      rw [← h.1] at hr
      simp at hr
    · dsimp only at h
      split at h
      · exact Option.noConfusion h
      rename_i rows1 s3 heqc
      split at h
      · exact Option.noConfusion h
      rename_i rest s4 heqr
      simp only [Option.some.injEq, Prod.mk.injEq] at h
      rw [← h.1] at hr
      rcases List.mem_append.mp hr with hr | hr
      · exact txChunk_md_ne_dal _ _ _ _ _ _ _ _ _ _ _ _ heqc r hr
      · exact ih _ _ _ _ _ heqr r hr

/-- C7: in every transaction row of a successfully generated
transaction table, the debit account differs from the credit account
(the rejection loop re-draws the credit account until it differs). -/
theorem c7_transakce_md_ne_dal (ucty : List UcetRow)
    (strediska : List StrediskoRow) (projekty : List ProjektRow)
    (profit_centra : List ProfitCentrumRow) (pobocky : List PobockaRow)
    (n fuel : Nat) (s : RState) :
    ∀ r ∈ ((gen_transakce ucty strediska projekty profit_centra pobocky
        n fuel s).map Prod.fst).getD [],
      r.ucet_md ≠ r.ucet_dal := by
  intro r hr
  rcases hg : gen_transakce ucty strediska projekty profit_centra pobocky
      n fuel s with _ | ⟨rows, s'⟩
  · rw [hg] at hr
    simp at hr
  · rw [hg] at hr
    simp only [Option.map_some', Option.getD_some] at hr
    unfold gen_transakce at hg
    exact txLoop_md_ne_dal _ _ _ _ _ _ _ _ _ _ _ _ hg r hr

/-- Example revenue account, project and profit-center rows used in
witnesses. -/
def ucetVynosEx : UcetRow :=
  { ucet_cislo := "601", ucet_nazev := "Tržby za výrobky 1", typ := "Výnosy",
    skupina := "Tržby za vlastní výrobky", trida := "6", stav := "aktivní" }

def projEx : ProjektRow :=
  { projekt_id := "PROJ001", projekt_nazev := "Projekt Delta",
    stav := "Aktivní", rozpocet := 500000, datum_zahajeni := 19358,
    datum_ukonceni := 19458, typ := "Interní" }

def pcEx : ProfitCentrumRow :=
  { profit_centrum_id := "PC01", nazev := "Retail CZ", region_id := "REG01",
    manazer := "Jana Novotná", stav := "aktivní", rocni_cil := 1000000 }

theorem c7_transakce_md_ne_dal_witness :
    ((((gen_transakce [ucetNakladEx, ucetVynosEx] [strEx] [projEx] [pcEx]
          [pobEx] 1 3 sId).map Prod.fst).getD []).getD 0 default
        ∈ ((gen_transakce [ucetNakladEx, ucetVynosEx] [strEx] [projEx] [pcEx]
          [pobEx] 1 3 sId).map Prod.fst).getD []) ∧
    ((((gen_transakce [ucetNakladEx, ucetVynosEx] [strEx] [projEx] [pcEx]
          [pobEx] 1 3 sId).map Prod.fst).getD []).getD 0 default).ucet_md ≠
      ((((gen_transakce [ucetNakladEx, ucetVynosEx] [strEx] [projEx] [pcEx]
          [pobEx] 1 3 sId).map Prod.fst).getD []).getD 0 default).ucet_dal :=
  ⟨by decide,
    c7_transakce_md_ne_dal [ucetNakladEx, ucetVynosEx] [strEx] [projEx] [pcEx]
      [pobEx] 1 3 sId _ (by decide)⟩

structure VyrobniZakazkaRow where
  zakazka_id : String
  produkt_id : String
  planovane_mnozstvi : ℤ
  datum_zahajeni : ℤ
  datum_ukonceni : ℤ
  stredisko_id : String
  naklady_material : ℚ
  naklady_prace : ℚ
  naklady_rezie : ℚ
  celkove_naklady : ℚ
  stav : String
  vyuziti_kapacity : ℚ
  zmetky : ℤ
deriving DecidableEq, Inhabited

structure CashflowRow where
  cashflow_id : String
  datum : ℤ
  typ_pohybu : String
  smer : String
  castka : ℚ
  ucet : String
  pobocka_id : String
  mena : String
  stav : String
deriving DecidableEq, Inhabited

def vyrKategorie : List String :=
  ["Elektronika", "Strojírenství", "Chemie", "Automotive", "Textil", "Stavebnictví"]
def stavyVyroba : List String :=
  ["Plánováno", "V výrobě", "V výrobě", "Dokončeno", "Dokončeno", "Dokončeno",
   "Pozastaveno", "Zrušeno"]

/-- Manufacturing-eligible product keys, with the source's fallback to
the first 50 products when the filter is empty. -/
def vyrProduktyList (produkty : List ProduktRow) : List String :=
  let f := (produkty.filter (fun p => vyrKategorie.contains p.kategorie)).map
    (fun p => p.produkt_id)
  if f.isEmpty then (produkty.map (fun p => p.produkt_id)).take 50 else f

/-- Production-typed cost-center keys, with fallback to the first 10. -/
def strVyrobaList (strediska : List StrediskoRow) : List String :=
  let f := (strediska.filter (fun r => r.typ == "Výroba")).map
    (fun r => r.stredisko_id)
  if f.isEmpty then (strediska.map (fun r => r.stredisko_id)).take 10 else f

/-- Financial-group account keys, with fallback to the first 10. -/
def cashflowUctyList (ucty : List UcetRow) : List String :=
  let f := (ucty.filter (fun u => u.skupina == "Finanční účty")).map
    (fun u => u.ucet_cislo)
  if f.isEmpty then (ucty.map (fun u => u.ucet_cislo)).take 10 else f

theorem choiceO_isSome (l : List α) (h : l ≠ []) :
    ∀ s, (choiceO l s).isSome := by
  intro s
  unfold choiceO
  dsimp only
  have hpos : 0 < l.length := List.length_pos.mpr h
  have hlt : (RState.next s).1 % l.length < l.length := Nat.mod_lt _ hpos
  rw [List.get?_eq_get hlt]
  rfl

theorem take_ne_nil_of_ne_nil {l : List α} (h : l ≠ []) (n : Nat)
    (hn : n ≠ 0) : l.take n ≠ [] := by
  intro hc
  rcases List.take_eq_nil_iff.mp hc with h1 | h1
  · exact hn h1
  · exact h h1

theorem vyrProduktyList_ne_nil {produkty : List ProduktRow}
    (h : produkty ≠ []) : vyrProduktyList produkty ≠ [] := by
  unfold vyrProduktyList
  dsimp only
  split
  · exact take_ne_nil_of_ne_nil (by simpa using h) 50 (by norm_num)
  · rename_i hne
    simpa [List.isEmpty_iff] using hne

theorem strVyrobaList_ne_nil {strediska : List StrediskoRow}
    (h : strediska ≠ []) : strVyrobaList strediska ≠ [] := by
  unfold strVyrobaList
  dsimp only
  split
  · exact take_ne_nil_of_ne_nil (by simpa using h) 10 (by norm_num)
  · rename_i hne
    simpa [List.isEmpty_iff] using hne

theorem cashflowUctyList_ne_nil {ucty : List UcetRow}
    (h : ucty ≠ []) : cashflowUctyList ucty ≠ [] := by
  unfold cashflowUctyList
  dsimp only
  split
  · exact take_ne_nil_of_ne_nil (by simpa using h) 10 (by norm_num)
  · rename_i hne
    simpa [List.isEmpty_iff] using hne

/-- One production order row. -/
def vyrZakRow (vyrP strV : List String) (i : Nat) (s : RState) :
    Option (VyrobniZakazkaRow × RState) :=
  let (d1, s1) := randint 0 900 s
  let start := DATE_START + d1
  let (dur, s2) := randint 1 45 s1
  let (mn, s3) := randint 10 5000 s2
  let (u1, s4) := uniform 1000 500000 s3
  let mat := round2 u1
  let (u2, s5) := uniform 0.2 0.8 s4
  let labor := round2 (mat * u2)
  let (u3, s6) := uniform 0.05 0.25 s5
  let overhead := round2 ((mat + labor) * u3)
  match choiceO vyrP s6 with
  | none => none
  | some (pid, s7) =>
    match choiceO strV s7 with
    | none => none
    | some (sid, s8) =>
      let (stav, s9) := choice stavyVyroba s8
      let (u4, s10) := uniform 0.85 1.05 s9
      let vyuziti := roundD 3 u4
      let (zm, s11) := randint 0 (mn * 5 / 100) s10
      some ({ zakazka_id := "VZ" ++ zfill 6 (i + 1),
              produkt_id := pid,
              planovane_mnozstvi := mn,
              datum_zahajeni := start,
              datum_ukonceni := start + dur,
              stredisko_id := sid,
              naklady_material := mat,
              naklady_prace := labor,
              naklady_rezie := overhead,
              celkove_naklady := round2 (mat + labor + overhead),
              stav := stav,
              vyuziti_kapacity := vyuziti,
              zmetky := zm }, s11)

/-- `gen_vyrobni_zakazky`: `n` production orders over the restricted
(or fallback) product and cost-center candidate lists. -/
def gen_vyrobni_zakazky (produkty : List ProduktRow)
    (strediska : List StrediskoRow) (n : Nat) (s : RState) :
    Option (List VyrobniZakazkaRow × RState) :=
  mapStateO (vyrZakRow (vyrProduktyList produkty) (strVyrobaList strediska))
    (List.range n) s

def typyCashflow : List String :=
  ["Příjem z prodeje", "Příjem z prodeje", "Příjem z prodeje",
   "Platba dodavateli", "Platba dodavateli", "Mzdy", "Daně", "Splátka úvěru",
   "Úroky", "Investice", "Příjem úvěru", "Dividendy", "Ostatní příjem",
   "Ostatní výdaj"]
def incomeTypy : List String :=
  ["Příjem z prodeje", "Příjem úvěru", "Ostatní příjem", "Dividendy"]
def stavyCashflow : List String :=
  ["Realizováno", "Realizováno", "Realizováno", "Plánováno"]
def menyCashflow : List String :=
  List.replicate 85 "CZK" ++ List.replicate 15 "EUR"

/-- One cash-flow row for (row index, date). -/
def cfRow (ucet_list pob_list : List String) (a : Nat × ℤ) (s : RState) :
    Option (CashflowRow × RState) :=
  let (i, datum) := a
  let (typ, s1) := choice typyCashflow s
  let is_income := incomeTypy.contains typ
  let (u, s2) := uniform 500 2000000 s1
  let castka := round2 u
  match choiceO ucet_list s2 with
  | none => none
  | some (ucet, s3) =>
    match choiceO pob_list s3 with
    | none => none
    | some (pob, s4) =>
      let (mena, s5) := choice menyCashflow s4
      let (stav, s6) := choice stavyCashflow s5
      some ({ cashflow_id := "CF" ++ zfill 6 (i + 1),
              datum := datum,
              typ_pohybu := typ,
              smer := if is_income then "Příjem" else "Výdaj",
              castka := if is_income then castka else -castka,
              ucet := ucet,
              pobocka_id := pob,
              mena := mena,
              stav := stav }, s6)

/-- `gen_cashflow`: `n` cash-flow rows over seasonal dates and the
restricted (or fallback) financial-account candidate list. -/
def gen_cashflow (pobocky : List PobockaRow) (ucty : List UcetRow)
    (n : Nat) (s : RState) : Option (List CashflowRow × RState) :=
  let dp := seasonal_dates n DATE_START DATE_END s
  mapStateO (cfRow (cashflowUctyList ucty)
    (pobocky.map (fun p => p.pobocka_id))) dp.1.enum dp.2

theorem vyrZakRow_isSome (vyrP strV : List String) (hp : vyrP ≠ [])
    (hv : strV ≠ []) (i : Nat) (s : RState) :
    (vyrZakRow vyrP strV i s).isSome := by
  unfold vyrZakRow
  dsimp only
  split
  · rename_i heq
    exact absurd heq (Option.isSome_iff_ne_none.mp (choiceO_isSome vyrP hp _))
  split
  · rename_i heq
    exact absurd heq (Option.isSome_iff_ne_none.mp (choiceO_isSome strV hv _))
  rfl

theorem cfRow_isSome (ucet_list pob_list : List String) (hu : ucet_list ≠ [])
    (hb : pob_list ≠ []) (a : Nat × ℤ) (s : RState) :
    (cfRow ucet_list pob_list a s).isSome := by
  obtain ⟨i, datum⟩ := a
  unfold cfRow
  dsimp only
  split
  · rename_i heq
    exact absurd heq (Option.isSome_iff_ne_none.mp (choiceO_isSome ucet_list hu _))
  split
  · rename_i heq
    exact absurd heq (Option.isSome_iff_ne_none.mp (choiceO_isSome pob_list hb _))
  rfl

/-- C9: restricted-reference resolution never fails — whenever the
unrestricted product/cost-center/branch/account tables are nonempty,
the filtered-candidate-with-fallback lists are nonempty and the
builders produce a table rather than an error. -/
theorem c9_fallback_resolution (produkty : List ProduktRow)
    (strediska : List StrediskoRow) (pobocky : List PobockaRow)
    (ucty : List UcetRow) (n m : Nat) (s1 s2 : RState)
    (hp : produkty ≠ []) (hs : strediska ≠ []) (hb : pobocky ≠ [])
    (hu : ucty ≠ []) :
    (gen_vyrobni_zakazky produkty strediska n s1).isSome ∧
    (gen_cashflow pobocky ucty m s2).isSome := by
  constructor
  · exact mapStateO_isSome _
      (fun i s => vyrZakRow_isSome _ _ (vyrProduktyList_ne_nil hp)
        (strVyrobaList_ne_nil hs) i s) _ _
  · exact mapStateO_isSome _
      (fun a s => cfRow_isSome _ _ (cashflowUctyList_ne_nil hu)
        (by simpa using hb) a s) _ _

theorem c9_fallback_resolution_witness :
    (([prodEx] : List ProduktRow) ≠ [] ∧ ([strEx] : List StrediskoRow) ≠ [] ∧
      ([pobEx] : List PobockaRow) ≠ [] ∧ ([ucetNakladEx] : List UcetRow) ≠ []) ∧
    ((gen_vyrobni_zakazky [prodEx] [strEx] 1 sId).isSome ∧
      (gen_cashflow [pobEx] [ucetNakladEx] 1 sId).isSome) :=
  ⟨⟨by simp, by simp, by simp, by simp⟩,
    c9_fallback_resolution [prodEx] [strEx] [pobEx] [ucetNakladEx] 1 1 sId sId
      (by simp) (by simp) (by simp) (by simp)⟩

/-- `gen_regiony`: a fixed table, no randomness. -/
def gen_regiony : List RegionRow := [
  ⟨"REG01", "Praha", "CZ"⟩, ⟨"REG02", "Středočeský", "CZ"⟩,
  ⟨"REG03", "Jihomoravský", "CZ"⟩, ⟨"REG04", "Moravskoslezský", "CZ"⟩,
  ⟨"REG05", "Plzeňský", "CZ"⟩, ⟨"REG06", "Královéhradecký", "CZ"⟩,
  ⟨"REG07", "Olomoucký", "CZ"⟩, ⟨"REG08", "Liberecký", "CZ"⟩,
  ⟨"REG09", "Bratislava", "SK"⟩, ⟨"REG10", "Wien", "AT"⟩]

/-- The fixed region → city table of `gen_pobocky`. -/
def mestaPobocky : List (String × List String) := [
  ("REG01", ["Praha 1", "Praha 4", "Praha 8"]),
  ("REG02", ["Kladno", "Mladá Boleslav", "Kolín"]),
  ("REG03", ["Brno-střed", "Brno-sever", "Znojmo"]),
  ("REG04", ["Ostrava", "Frýdek-Místek", "Opava"]),
  ("REG05", ["Plzeň", "Klatovy", "Rokycany"]),
  ("REG06", ["Hradec Králové", "Trutnov", "Náchod"]),
  ("REG07", ["Olomouc", "Přerov", "Šumperk"]),
  ("REG08", ["Liberec", "Jablonec", "Česká Lípa"]),
  ("REG09", ["Bratislava I", "Bratislava III", "Pezinok"]),
  ("REG10", ["Wien Zentrum", "Wien Nord", "Wien Süd"])]

def stavyPobocky : List String :=
  ["aktivní", "aktivní", "aktivní", "plánovaná"]

/-- Expansion of the city table: (branch number, region, city) per row. -/
def mestaBase : List (Nat × String × String) :=
  mestaPobocky.enum.flatMap (fun q =>
    q.2.2.enum.map (fun c => (q.1 * 3 + c.1 + 1, q.2.1, c.2)))

def pobockaCell (a : Nat × String × String) (s : RState) :
    PobockaRow × RState :=
  let (k, rid, city) := a
  let (addr, s1) := fakeText "Ulice " s
  let (stav, s2) := choice stavyPobocky s1
  ({ pobocka_id := "POB" ++ zfill 2 k,
     pobocka_nazev := "Pobočka " ++ city,
     adresa := addr, mesto := city, region_id := rid, stav := stav }, s2)

/-- `gen_pobocky` (the region table is accepted and unused beyond the
fixed city table, as in the source). -/
def gen_pobocky (regiony : List RegionRow) (s : RState) :
    List PobockaRow × RState :=
  mapState pobockaCell mestaBase s

def nazvyPC : List String :=
  ["Retail CZ", "Wholesale CZ", "E-commerce", "B2B International",
   "Services CZ", "Retail SK", "Manufacturing", "Consulting", "Logistics",
   "Financial Services", "IT Solutions", "Custom Products", "Maintenance",
   "After-sales", "Export EU", "Government", "Energy", "Healthcare",
   "Automotive", "Ostatní"]

def stavyPC : List String := ["aktivní", "aktivní", "neaktivní"]

def pcCell (regIds : List String) (i : Nat) (s : RState) :
    ProfitCentrumRow × RState :=
  let (rid, s1) := choice regIds s
  let (man, s2) := fakeText "Jmeno " s1
  let (stav, s3) := choice stavyPC s2
  let (u, s4) := uniform 500000 50000000 s3
  ({ profit_centrum_id := "PC" ++ zfill 2 (i + 1),
     nazev := nazvyPC.getD i "",
     region_id := rid, manazer := man, stav := stav,
     rocni_cil := round2 u }, s4)

/-- `gen_profit_centra`: 20 profit centers. -/
def gen_profit_centra (regiony : List RegionRow) (s : RState) :
    List ProfitCentrumRow × RState :=
  mapState (pcCell (regiony.map (fun r => r.region_id))) (List.range 20) s

def stavyProjekt : List String :=
  ["Plánovaný", "Aktivní", "Aktivní", "Aktivní", "Pozastavený",
   "Dokončený", "Zrušený"]
def typyProjekt : List String :=
  ["Interní", "Zákaznický", "R&D", "Investiční", "Údržba"]

def projektCell (i : Nat) (s : RState) : ProjektRow × RState :=
  let (d1, s1) := randint 0 800 s
  let start := DATE_START + d1
  let (dur, s2) := randint 30 730 s1
  let (nm, s3) := fakeText "Heslo " s2
  let (stav, s4) := choice stavyProjekt s3
  let (u, s5) := uniform 50000 5000000 s4
  let (typ, s6) := choice typyProjekt s5
  ({ projekt_id := "PROJ" ++ zfill 3 (i + 1),
     projekt_nazev := nm.take 50,
     stav := stav, rozpocet := round2 u,
     datum_zahajeni := start, datum_ukonceni := start + dur,
     typ := typ }, s6)

/-- `gen_projekty`: 100 projects. -/
def gen_projekty (s : RState) : List ProjektRow × RState :=
  mapState projektCell (List.range 100) s

def pozice : List String :=
  ["Analytik", "Účetní", "Manažer", "Technik", "Operátor", "Obchodník",
   "Programátor", "Ředitel", "Asistent", "Koordinátor", "Správce",
   "Specialista", "Konzultant", "Inženýr", "Dispečer"]
def stavyZamestnanec : List String :=
  List.replicate 9 "Aktivní" ++ ["Neaktivní"]
def typyUvazku : List String :=
  List.replicate 8 "Plný úvazek" ++ ["Částečný úvazek", "DPP"]

def zamCell (strIds : List String) (i : Nat) (s : RState) :
    ZamestnanecRow × RState :=
  let (d1, s1) := randint (-1500) 800 s
  let nastup := DATE_START + d1
  let (jm, s2) := fakeText "Jmeno " s1
  let (pr, s3) := fakeText "Prijmeni " s2
  let (strid, s4) := choice strIds s3
  let (poz, s5) := choice pozice s4
  let (u, s6) := uniform 28000 120000 s5
  let (stav, s7) := choice stavyZamestnanec s6
  let (uvazek, s8) := choice typyUvazku s7
  let (em, s9) := fakeText "Email " s8
  ({ zamestnanec_id := "EMP" ++ zfill 4 (i + 1),
     jmeno := jm, prijmeni := pr, stredisko_id := strid, pozice := poz,
     hruba_mzda := roundD 0 u, datum_nastupu := nastup,
     stav := stav, typ_uvazku := uvazek, email := em }, s9)

/-- `gen_zamestnanci`: 500 employees. -/
def gen_zamestnanci (strediska : List StrediskoRow) (s : RState) :
    List ZamestnanecRow × RState :=
  mapState (zamCell (strediska.map (fun r => r.stredisko_id)))
    (List.range 500) s

def kategorieProduktu : List String :=
  ["Elektronika", "Strojírenství", "Software", "Služby", "Chemie",
   "Potraviny", "Textil", "Stavebnictví", "Automotive", "Energie"]
def jednotky : List String := ["ks", "kg", "l", "m", "hod", "bal"]
def stavyProduktu : List String :=
  List.replicate 8 "Aktivní" ++ ["Ukončený", "Plánovaný"]

def produktCell (i : Nat) (s : RState) : ProduktRow × RState :=
  let (u1, s1) := uniform 50 50000 s
  let cena := round2 u1
  let (marze, s2) := uniform 0.1 0.6 s1
  let (nm, s3) := fakeText "Heslo " s2
  let (kat, s4) := choice kategorieProduktu s3
  let (jed, s5) := choice jednotky s4
  let (stav, s6) := choice stavyProduktu s5
  ({ produkt_id := "PRD" ++ zfill 4 (i + 1),
     produkt_nazev := nm.take 40, kategorie := kat,
     prodejni_cena := cena,
     nakladova_cena := round2 (cena * (1 - marze)),
     jednotka := jed, stav := stav }, s6)

/-- `gen_produkty`: 300 products. -/
def gen_produkty (s : RState) : List ProduktRow × RState :=
  mapState produktCell (List.range 300) s

def segmenty : List String :=
  ["Enterprise", "SMB", "Retail", "Government", "Non-profit"]
def stavyZakaznika : List String :=
  List.replicate 8 "Aktivní" ++ ["Neaktivní", "Prospect"]
def platebniPodminkyZak : List String := ["NET30", "NET60", "NET90", "COD"]

def zakaznikCell (regIds : List String) (i : Nat) (s : RState) :
    ZakaznikRow × RState :=
  let (nm, s1) := fakeText "Firma " s
  let (seg, s2) := choice segmenty s1
  let (rid, s3) := choice regIds s2
  let (addr, s4) := fakeText "Ulice " s3
  let (city, s5) := fakeText "Mesto " s4
  let (stav, s6) := choice stavyZakaznika s5
  let (u, s7) := uniform 10000 5000000 s6
  let (pp, s8) := choice platebniPodminkyZak s7
  ({ zakaznik_id := "CUS" ++ zfill 4 (i + 1),
     zakaznik_nazev := nm.take 50, segment := seg, region_id := rid,
     adresa := addr, mesto := city, stav := stav,
     kreditni_limit := round2 u, platebni_podminky := pp }, s8)

/-- `gen_zakaznici`: 200 customers. -/
def gen_zakaznici (regiony : List RegionRow) (s : RState) :
    List ZakaznikRow × RState :=
  mapState (zakaznikCell (regiony.map (fun r => r.region_id)))
    (List.range 200) s

def kategorieDodavatele : List String :=
  ["Materiál", "Služby", "IT", "Logistika", "Energie", "Suroviny",
   "Údržba", "Marketing"]
def hodnoceniDod : List String := ["A", "A", "B", "B", "C"]
def zemeDod : List String := ["CZ", "CZ", "CZ", "SK", "DE", "AT"]
def stavyDodavatele : List String :=
  List.replicate 8 "Aktivní" ++ ["Neaktivní", "Blokovaný"]
def platebniPodminkyDod : List String := ["NET30", "NET45", "NET60", "Předem"]

def dodavatelCell (i : Nat) (s : RState) : DodavatelRow × RState :=
  let (nm, s1) := fakeText "Firma " s
  let (kat, s2) := choice kategorieDodavatele s1
  let (hod, s3) := choice hodnoceniDod s2
  let (addr, s4) := fakeText "Ulice " s3
  let (city, s5) := fakeText "Mesto " s4
  let (zem, s6) := choice zemeDod s5
  let (stav, s7) := choice stavyDodavatele s6
  let (pp, s8) := choice platebniPodminkyDod s7
  ({ dodavatel_id := "SUP" ++ zfill 3 (i + 1),
     dodavatel_nazev := nm.take 50, kategorie := kat, hodnoceni := hod,
     adresa := addr, mesto := city, zeme := zem, stav := stav,
     platebni_podminky := pp }, s8)

/-- `gen_dodavatele`: 100 suppliers. -/
def gen_dodavatele (s : RState) : List DodavatelRow × RState :=
  mapState dodavatelCell (List.range 100) s

/-- All output tables of one full run. -/
structure Dataset where
  regiony : List RegionRow
  pobocky : List PobockaRow
  strediska : List StrediskoRow
  profit_centra : List ProfitCentrumRow
  projekty : List ProjektRow
  ucty : List UcetRow
  zamestnanci : List ZamestnanecRow
  produkty : List ProduktRow
  zakaznici : List ZakaznikRow
  dodavatele : List DodavatelRow
  transakce : List TxRow
  mzdy : List MzdyRow
  prodeje : List ProdejRow
  nakupy : List NakupRow
  vyrobni_zakazky : List VyrobniZakazkaRow
  cashflow : List CashflowRow
  budget : List BudgetRow
deriving DecidableEq, Inhabited

/-- The whole generator in `main`'s order: dimensions first, then
facts, threading the one shared random context through every builder,
with the source's default row counts.  `fuel` bounds the credit-account
rejection loops; `none` models a run aborted by an exception. -/
def pipeline (fuel : Nat) (s : RState) : Option Dataset :=
  let regiony := gen_regiony
  let (pobocky, s1) := gen_pobocky regiony s
  let (strediska, s2) := gen_strediska pobocky s1
  let (profit_centra, s3) := gen_profit_centra regiony s2
  let (projekty, s4) := gen_projekty s3
  let (ucty, s5) := gen_ucty s4
  let (zamestnanci, s6) := gen_zamestnanci strediska s5
  let (produkty, s7) := gen_produkty s6
  let (zakaznici, s8) := gen_zakaznici regiony s7
  let (dodavatele, s9) := gen_dodavatele s8
  match gen_transakce ucty strediska projekty profit_centra pobocky
      500000 fuel s9 with
  | none => none
  | some (transakce, s10) =>
    let (mzdy, s11) := gen_mzdy zamestnanci s10
    let (prodeje, s12) := gen_prodeje zakaznici produkty pobocky 100000 s11
    let (nakupy, s13) := gen_nakupy dodavatele produkty strediska 50000 s12
    match gen_vyrobni_zakazky produkty strediska 20000 s13 with
    | none => none
    | some (vz, s14) =>
      match gen_cashflow pobocky ucty 80000 s14 with
      | none => none
      | some (cf, s15) =>
        let (budget, _) := gen_budget strediska ucty s15
        some { regiony := regiony, pobocky := pobocky,
               strediska := strediska, profit_centra := profit_centra,
               projekty := projekty, ucty := ucty,
               zamestnanci := zamestnanci, produkty := produkty,
               zakaznici := zakaznici, dodavatele := dodavatele,
               transakce := transakce, mzdy := mzdy, prodeje := prodeje,
               nakupy := nakupy, vyrobni_zakazky := vz, cashflow := cf,
               budget := budget }

/-- C3: the generator is deterministic — two full runs from the same
initial random-context state produce identical output tables, row for
row and column for column. -/
theorem c3_pipeline_deterministic (fuel : Nat) (s1 s2 : RState)
    (h : s1 = s2) : pipeline fuel s1 = pipeline fuel s2 := by
  rw [h]

theorem c3_pipeline_deterministic_witness :
    sId = sId ∧ pipeline 100 sId = pipeline 100 sId :=
  ⟨rfl, c3_pipeline_deterministic 100 sId sId rfl⟩
